import Mathlib

/-!
# Verification of the Vertex Color Utils add-on

A shallow embedding of the add-on's logic (channel masking, channel
swizzling, and the vertex-color sampler) from `src/__init__.py`, together
with theorems settling the specification's claims.

Modelling conventions:
* Host color attributes store RGBA floats in `[0,1]`; we model components
  as rationals (`ℚ`), which faithfully represent every float value.
* Python strings are modelled as `List Char`; Python string slicing
  `s[:-k]` becomes `take (length - k)` and `s[-k:]` becomes
  `drop (length - k)`; `str.endswith` becomes a suffix test.
* Python sets of channel characters are modelled as `List Char`
  (iteration order made explicit); all operations on them in the source
  are membership tests, which are order-insensitive.
* Fallible Python code (raised exceptions: `IndexError`, `KeyError`,
  `RuntimeError`, ...) is modelled with `Except String`.
-/

namespace VCU

/-- An RGBA color, one element of a color attribute's data array. -/
structure Color where
  r : ℚ
  g : ℚ
  b : ℚ
  a : ℚ
deriving DecidableEq, Repr

/-- A mesh color attribute (a "color layer"): `Byte/FloatColorAttribute`
in the host API.  `domain` is the host's domain string
(`POINT` or `CORNER`); `data_type` is carried opaquely. -/
structure Attr where
  name : List Char
  data_type : List Char
  domain : List Char
  data : List Color
deriving DecidableEq, Repr

/-- A vertex position supplied by the host (`mesh.vertices[i].co`). -/
structure Point where
  x : ℚ
  y : ℚ
  z : ℚ
deriving DecidableEq, Repr

/-- A mesh polygon: its vertex indices and the corresponding loop indices
(`face.vertices` and `face.loop_indices`, index-aligned). -/
structure Face where
  vertices : List Nat
  loop_indices : List Nat
deriving DecidableEq, Repr

/-- The mesh state the add-on touches: vertex positions, the loop count,
the polygons, the color-attribute collection and the name of the active
color attribute. -/
structure Mesh where
  vertices : List Point
  num_loops : Nat
  polygons : List Face
  color_attributes : List Attr
  active_color_name : List Char
deriving DecidableEq, Repr

/-- `name in color_attrs` in the host API: membership by attribute name. -/
def attrs_contains (attrs : List Attr) (name : List Char) : Bool :=
  attrs.any (fun a => a.name == name)

/-- `color_attrs[name]` lookup (first attribute with the given name;
the host keeps names unique). -/
def attrs_find (attrs : List Attr) (name : List Char) : Option Attr :=
  attrs.find? (fun a => a.name == name)

/-- Replace the data array of the (first) attribute with the given name. -/
def attrs_set_data : List Attr → List Char → List Color → List Attr
  | [], _, _ => []
  | a :: rest, name, d =>
    if a.name = name then { a with data := d } :: rest
    else a :: attrs_set_data rest name d

/-- `color_attrs.remove(attr)`: remove the (first) attribute with the
given name from the collection. -/
def attrs_remove : List Attr → List Char → List Attr
  | [], _ => []
  | a :: rest, name => if a.name = name then rest else a :: attrs_remove rest name

/-- Embeds `make_channel_str` (src/__init__.py:335-342).
`channels` is a set of characters in `[RGBA]`, modelled as a list. -/
def make_channel_str (channels : List Char) : List Char :=
  if 'A' ∈ channels then ['A']
  else (if 'R' ∈ channels then ['R'] else [])
    ++ (if 'G' ∈ channels then ['G'] else [])
    ++ (if 'B' ∈ channels then ['B'] else [])

/-- Embeds `make_channel_set` (src/__init__.py:345-351): builds the set of
channel characters occurring in `channel_str`, testing R, G, B, A in that
order. -/
def make_channel_set (channel_str : List Char) : List Char :=
  (if 'R' ∈ channel_str then ['R'] else [])
    ++ (if 'G' ∈ channel_str then ['G'] else [])
    ++ (if 'B' ∈ channel_str then ['B'] else [])
    ++ (if 'A' ∈ channel_str then ['A'] else [])

/-- Python's `str.endswith(suffix)`. -/
def endswith (s suffix : List Char) : Bool :=
  List.isSuffixOf suffix s

/-- Embeds `attr_name_is_mask` (src/__init__.py:354-363). -/
def attr_name_is_mask (name : List Char) : Bool :=
  endswith name ['_','_','R'] ||
  endswith name ['_','_','G'] ||
  endswith name ['_','_','B'] ||
  endswith name ['_','_','A'] ||
  endswith name ['_','_','R','G'] ||
  endswith name ['_','_','R','B'] ||
  endswith name ['_','_','G','B'] ||
  endswith name ['_','_','R','G','B']

/-- Embeds `get_mask_name_parts` (src/__init__.py:366-381): returns
`(base name, channel str)`; `name[:-k]` is `take (length - k)` and
`name[-k:]` is `drop (length - k)`. -/
def get_mask_name_parts (name : List Char) : List Char × List Char :=
  if endswith name ['_','_','R'] || endswith name ['_','_','G'] ||
     endswith name ['_','_','B'] || endswith name ['_','_','A'] then
    (name.take (name.length - 3), name.drop (name.length - 1))
  else if endswith name ['_','_','R','G'] || endswith name ['_','_','R','B'] ||
          endswith name ['_','_','G','B'] then
    (name.take (name.length - 4), name.drop (name.length - 2))
  else if endswith name ['_','_','R','G','B'] then
    (name.take (name.length - 5), name.drop (name.length - 3))
  else (name, [])

/-- Embeds `check_for_conflicting_mask` (src/__init__.py:384-392): scan
the attributes in order; for each mask of `base_name`, return the first
requested channel (in the iteration order of `channels`) appearing in
that mask's channel string, paired with the mask. -/
def check_for_conflicting_mask (color_attrs : List Attr) (base_name : List Char)
    (channels : List Char) : Option (Char × Attr) :=
  match color_attrs with
  | [] => none
  | attr :: rest =>
    if attr_name_is_mask attr.name then
      let p := get_mask_name_parts attr.name
      if p.1 = base_name then
        match channels.find? (fun c => decide (c ∈ p.2)) with
        | some c => some (c, attr)
        | none => check_for_conflicting_mask rest base_name channels
      else check_for_conflicting_mask rest base_name channels
    else check_for_conflicting_mask rest base_name channels

/-- Embeds `copy_to_mask` (src/__init__.py:232-267): computes the new
data array of the mask attribute from the base attribute's data, for the
given channel string.  The source loops over all indices `0..n-1` writing
`mask.data[i].color`; with equal lengths this is a map over the base
data.  Raised `RuntimeError`s become `.error`. -/
def copy_to_mask (base mask : Attr) (ch : List Char) : Except String (List Color) :=
  if base.data.length ≠ mask.data.length then
    .error ("Mask color attribute '" ++ String.mk mask.name ++
      "' does not have the same amount of vertex data as the color base attribute '" ++
      String.mk base.name ++ "'")
  else if ch = ['R'] then
    .ok (base.data.map (fun c => ⟨c.r, 0, 0, 1⟩))
  else if ch = ['G'] then
    .ok (base.data.map (fun c => ⟨0, c.g, 0, 1⟩))
  else if ch = ['B'] then
    .ok (base.data.map (fun c => ⟨0, 0, c.b, 1⟩))
  else if ch = ['A'] then
    .ok (base.data.map (fun c => ⟨c.a, c.a, c.a, 1⟩))
  else if ch = ['R','G'] then
    .ok (base.data.map (fun c => ⟨c.r, c.g, 0, 1⟩))
  else if ch = ['R','B'] then
    .ok (base.data.map (fun c => ⟨c.r, 0, c.b, 1⟩))
  else if ch = ['G','B'] then
    .ok (base.data.map (fun c => ⟨0, c.g, c.b, 1⟩))
  else if ch = ['R','G','B'] then
    .ok (base.data.map (fun c => ⟨c.r, c.g, c.b, 1⟩))
  else
    .error ("Invalid channel string '" ++ String.mk ch ++ "'")

/-- Embeds `copy_from_mask` (src/__init__.py:270-310): computes the new
data array of the base attribute, overwriting only the channels selected
by `ch` with the mask's values (for `A`, the mask's red component).  The
source loops over all indices mutating components of
`base.data[i].color`; with equal lengths this is a zipWith. -/
def copy_from_mask (base mask : Attr) (ch : List Char) : Except String (List Color) :=
  if base.data.length ≠ mask.data.length then
    .error ("Mask color attribute '" ++ String.mk mask.name ++
      "' does not have the same amount of vertex data as the color base attribute '" ++
      String.mk base.name ++ "'")
  else if ch = ['R'] then
    .ok (List.zipWith (fun b m => { b with r := m.r }) base.data mask.data)
  else if ch = ['G'] then
    .ok (List.zipWith (fun b m => { b with g := m.g }) base.data mask.data)
  else if ch = ['B'] then
    .ok (List.zipWith (fun b m => { b with b := m.b }) base.data mask.data)
  else if ch = ['A'] then
    .ok (List.zipWith (fun b m => { b with a := m.r }) base.data mask.data)
  else if ch = ['R','G'] then
    .ok (List.zipWith (fun b m => { b with r := m.r, g := m.g }) base.data mask.data)
  else if ch = ['R','B'] then
    .ok (List.zipWith (fun b m => { b with r := m.r, b := m.b }) base.data mask.data)
  else if ch = ['G','B'] then
    .ok (List.zipWith (fun b m => { b with g := m.g, b := m.b }) base.data mask.data)
  else if ch = ['R','G','B'] then
    .ok (List.zipWith (fun b m => { b with r := m.r, g := m.g, b := m.b }) base.data mask.data)
  else
    .error ("Invalid channel string '" ++ String.mk ch ++ "'")

/-- The data array the host allocates for a freshly created color
attribute: one element per vertex for the `POINT` domain, one per loop
for the `CORNER` domain. -/
def domain_size (mesh : Mesh) (domain : List Char) : Nat :=
  if domain = ['P','O','I','N','T'] then mesh.vertices.length
  else if domain = ['C','O','R','N','E','R'] then mesh.num_loops
  else 0

/-- The host's initial value for new color-attribute elements. -/
def default_color : Color := ⟨0, 0, 0, 1⟩

/-- `color_attrs.new(name, data_type, domain)`: append a new attribute
with host-allocated data and return it together with the updated mesh. -/
def attrs_new (mesh : Mesh) (name data_type domain : List Char) : Mesh × Attr :=
  let attr : Attr := ⟨name, data_type, domain,
    List.replicate (domain_size mesh domain) default_color⟩
  ({ mesh with color_attributes := mesh.color_attributes ++ [attr] }, attr)

/-- Embeds `create_color_channel_mask` (src/__init__.py:313-332): reuse
an existing attribute named `base__code` if present, otherwise create a
new one, re-fetch the base attribute, and initialize the mask's data via
`copy_to_mask`. -/
def create_color_channel_mask (mesh : Mesh) (base_attr : Attr) (channel_str : List Char) :
    Except String (Mesh × Attr) :=
  let base_attr_name := base_attr.name
  let mask_attr_name := base_attr_name ++ ['_','_'] ++ channel_str
  match attrs_find mesh.color_attributes mask_attr_name with
  | some existing => .ok (mesh, existing)
  | none =>
    let created := attrs_new mesh mask_attr_name base_attr.data_type base_attr.domain
    match attrs_find created.1.color_attributes base_attr_name with
    | none => .error "KeyError: base attribute not found after creation"
    | some base2 =>
      match copy_to_mask base2 created.2 channel_str with
      | .error e => .error e
      | .ok mask_data =>
        .ok ({ created.1 with
                color_attributes := attrs_set_data created.1.color_attributes mask_attr_name mask_data },
             { created.2 with data := mask_data })

/-- Report severity levels used by the operators. -/
inductive ReportKind where
  | ERROR_INVALID_INPUT
  | WARNING
  | INFO
deriving DecidableEq, Repr

/-- A `self.report(...)` call: severity and message. -/
structure Report where
  kind : ReportKind
  msg : String
deriving DecidableEq, Repr

/-- Operator return status (`FINISHED` / `CANCELLED`). -/
inductive OpStatus where
  | FINISHED
  | CANCELLED
deriving DecidableEq, Repr

/-- Tail of `VCU_OT_create_color_channel_mask.execute`
(src/__init__.py:184-197): conflict check, then mask creation; on
conflict, warn and select the conflicting mask instead. -/
def create_mask_main (mesh : Mesh) (channels channel_str : List Char) (base_attr : Attr) :
    Except String (List Report × OpStatus × Mesh) :=
  match check_for_conflicting_mask mesh.color_attributes base_attr.name channels with
  | some conflict =>
    .ok ([⟨.WARNING, "There is already a mask '" ++ String.mk conflict.2.name ++
            "' which includes channel '" ++ String.mk [conflict.1] ++
            "'. Please apply it first before making a new mask which includes that channel."⟩],
         .FINISHED,
         { mesh with active_color_name := conflict.2.name })
  | none =>
    match create_color_channel_mask mesh base_attr channel_str with
    | .error e => .error e
    | .ok res =>
      .ok ([], .FINISHED, { res.1 with active_color_name := res.2.name })

/-- Embeds `VCU_OT_create_color_channel_mask.execute`
(src/__init__.py:162-197).  `channels` is the operator's channel-set
property.  Returns the reports, the operator status and the new mesh. -/
def create_mask_execute (mesh : Mesh) (channels : List Char) :
    Except String (List Report × OpStatus × Mesh) :=
  let channel_str := make_channel_str channels
  if channel_str = [] then .ok ([], .FINISHED, mesh)
  else
    match attrs_find mesh.color_attributes mesh.active_color_name with
    | none => .error "AttributeError: active color attribute is None"
    | some active_attr =>
      if attr_name_is_mask active_attr.name then
        let base_name := (get_mask_name_parts active_attr.name).1
        match attrs_find mesh.color_attributes base_name with
        | some base_attr => create_mask_main mesh channels channel_str base_attr
        | none =>
          .ok ([⟨.ERROR_INVALID_INPUT, "Active vertex color attribute '" ++
                  String.mk active_attr.name ++
                  "' appears to already be a mask, and no base color attribute '" ++
                  String.mk base_name ++ "' can be found."⟩],
               .CANCELLED, mesh)
      else create_mask_main mesh channels channel_str active_attr

/-- Embeds `VCU_OT_apply_mask.execute` (src/__init__.py:210-229): the
active attribute must parse as a mask; copy its channels back into the
base attribute, then delete the mask. -/
def apply_mask_execute (mesh : Mesh) : Except String (List Report × OpStatus × Mesh) :=
  match attrs_find mesh.color_attributes mesh.active_color_name with
  | none => .error "AttributeError: active color attribute is None"
  | some mask_attr =>
    if attr_name_is_mask mask_attr.name then
      let p := get_mask_name_parts mask_attr.name
      match attrs_find mesh.color_attributes p.1 with
      | none =>
        .ok ([⟨.ERROR_INVALID_INPUT, "No base color attribute '" ++ String.mk p.1 ++
                "' can be found to apply the mask to."⟩], .CANCELLED, mesh)
      | some base_attr =>
        match copy_from_mask base_attr mask_attr p.2 with
        | .error e => .error e
        | .ok new_base_data =>
          let attrs1 := attrs_set_data mesh.color_attributes base_attr.name new_base_data
          .ok ([], .FINISHED,
               { mesh with color_attributes := attrs_remove attrs1 mask_attr.name })
    else
      .ok ([⟨.ERROR_INVALID_INPUT, "Active vertex color attribute '" ++
              String.mk mask_attr.name ++ "' does not appear to be a mask."⟩],
           .CANCELLED, mesh)

/-- The dictionary `m = {'R':0, 'G':1, 'B':2, 'A':3, '0':4, '1':5}` in
`swizzle_channels`; a missing key is a Python `KeyError`, hence `none`. -/
def swizzle_m (c : Char) : Option Nat :=
  if c = 'R' then some 0
  else if c = 'G' then some 1
  else if c = 'B' then some 2
  else if c = 'A' then some 3
  else if c = '0' then some 4
  else if c = '1' then some 5
  else none

/-- The 6-slot source vector `[r, g, b, a, 0, 1]` built from an element's
current color in `swizzle_channels`. -/
def color_slots (c : Color) : List ℚ :=
  [c.r, c.g, c.b, c.a, 0, 1]

/-- Embeds `swizzle_channels` (src/__init__.py:435-444), acting on the
attribute's data array: for each element, build the 6-slot source vector
from its current color, then write the four channels by looking up the
mapped source indices.  Only the first four characters of the swizzle
string are read. -/
def swizzle_channels (data : List Color) (swizzle_str : List Char) :
    Except String (List Color) :=
  match swizzle_str with
  | c0 :: c1 :: c2 :: c3 :: _ =>
    match swizzle_m c0, swizzle_m c1, swizzle_m c2, swizzle_m c3 with
    | some new_r, some new_g, some new_b, some new_a =>
      .ok (data.map (fun c =>
        let col := color_slots c
        ⟨col.getD new_r 0, col.getD new_g 0, col.getD new_b 0, col.getD new_a 0⟩))
    | _, _, _, _ => .error "KeyError: invalid swizzle character"
  | _ => .error "IndexError: swizzle string shorter than 4"

/-- The fixed invalid-input message of `VCU_OT_swizzle_channels.execute`. -/
def swizzle_invalid_input_err_msg : String :=
  "Swizzle string must be 4 characters long and only contain R, G, B, A, 0, or 1."

/-- Embeds `VCU_OT_swizzle_channels.execute` (src/__init__.py:412-432),
acting on the active color attribute's data array: length/character
validation (after uppercasing), the lost-channels warning, then the
swizzle itself. -/
def swizzle_execute (data : List Color) (swizzle_str : List Char) :
    Except String (List Report × OpStatus × List Color) :=
  if swizzle_str.length ≠ 4 then
    .ok ([⟨.ERROR_INVALID_INPUT, swizzle_invalid_input_err_msg⟩], .CANCELLED, data)
  else
    let s := swizzle_str.map Char.toUpper
    if s.all (fun x => ['R','G','B','A','0','1'].contains x) then
      let warn : List Report :=
        if 'R' ∈ s ∧ 'G' ∈ s ∧ 'B' ∈ s ∧ 'A' ∈ s then []
        else [⟨.WARNING, "One or more channels will be lost in this swizzle operation."⟩]
      match swizzle_channels data s with
      | .error e => .error e
      | .ok d => .ok (warn, .FINISHED, d)
    else
      .ok ([⟨.ERROR_INVALID_INPUT, swizzle_invalid_input_err_msg⟩], .CANCELLED, data)

/-- Python list indexing `l[i]` with an `int` index: negative indices
count from the end; out-of-range raises `IndexError`. -/
def pyget {α : Type} (l : List α) (i : Int) : Except String α :=
  let j : Int := if i < 0 then (l.length : Int) + i else i
  if 0 ≤ j then
    match l[j.toNat]? with
    | some x => .ok x
    | none => .error "IndexError"
  else .error "IndexError"

/-- Squared Euclidean distance between two points.  The source compares
magnitudes `(v_loc - hit_loc).magnitude`; square root is strictly
monotone on nonnegative reals, so every comparison `dist < min_dist` in
the source branches identically on the squared distances, which keeps
the embedding inside `ℚ`. -/
def dist2 (u v : Point) : ℚ :=
  (u.x - v.x) * (u.x - v.x) + (u.y - v.y) * (u.y - v.y) + (u.z - v.z) * (u.z - v.z)

/-- `dist < min_dist` where `min_dist` starts at `float("inf")`:
`none` models infinity. -/
def dist_lt (d : ℚ) : Option ℚ → Bool
  | none => true
  | some m => decide (d < m)

/-- The closest-vertex loop of `pick_vertex_color_from_rayhit`
(src/__init__.py:623-632): fold over `enumerate(face.vertices)` carrying
`(min_dist, closest_face_vertex_index)`, initial state `(inf, -1)`;
`mesh.vertices[v_idx]` may raise `IndexError`. -/
def closest_vertex_loop (mesh : Mesh) (hit_loc : Point) :
    List Nat → Nat → Option ℚ → Int → Except String (Option ℚ × Int)
  | [], _, min_dist, best => .ok (min_dist, best)
  | v_idx :: rest, i, min_dist, best =>
    match pyget mesh.vertices (v_idx : Int) with
    | .error e => .error e
    | .ok v_loc =>
      let dist := dist2 v_loc hit_loc
      if dist_lt dist min_dist then
        closest_vertex_loop mesh hit_loc rest (i + 1) (some dist) (i : Int)
      else
        closest_vertex_loop mesh hit_loc rest (i + 1) min_dist best

/-- Embeds `pick_vertex_color_from_rayhit` (src/__init__.py:614-658):
find the face vertex closest to the hit location, then read the color at
the mesh vertex index (`POINT` domain) or at the corresponding face-loop
index (`CORNER` domain).  `.ok none` is the "no color" outcome; raised
exceptions become `.error`. -/
def pick_vertex_color_from_rayhit (mesh : Mesh) (hit_loc : Point) (hit_face_index : Int) :
    Except String (Option Color) :=
  match attrs_find mesh.color_attributes mesh.active_color_name with
  | none => .error "AttributeError: active color attribute is None"
  | some color_attr =>
    let vert_colors := color_attr.data
    match pyget mesh.polygons hit_face_index with
    | .error e => .error e
    | .ok face =>
      if face.vertices.length = 0 then .ok none
      else
        match closest_vertex_loop mesh hit_loc face.vertices 0 none (-1) with
        | .error e => .error e
        | .ok res =>
          let closest_face_vertex_index := res.2
          if color_attr.domain = ['P','O','I','N','T'] then
            if vert_colors.length ≠ mesh.vertices.length then
              .error "Unexpected number of vertex color datapoints for POINT domain"
            else
              match pyget face.vertices closest_face_vertex_index with
              | .error e => .error e
              | .ok closest_vertex_index =>
                match pyget vert_colors (closest_vertex_index : Int) with
                | .error e => .error e
                | .ok c => .ok (some c)
          else if color_attr.domain = ['C','O','R','N','E','R'] then
            if vert_colors.length ≠ mesh.num_loops then
              .error "Unexpected number of vertex color datapoints for CORNER domain"
            else
              match pyget face.loop_indices closest_face_vertex_index with
              | .error e => .error e
              | .ok closest_loop_index =>
                match pyget vert_colors (closest_loop_index : Int) with
                | .error e => .error e
                | .ok c => .ok (some c)
          else .error "Unknown domain on active color attribute."

/-- The result of the host's `ob.ray_cast`: hit flag, hit location and
hit face index. -/
structure RayHit where
  hit_ok : Bool
  location : Point
  face_index : Int
deriving DecidableEq, Repr

/-- Embeds `pick_vertex_color_from_mouse_coord` (src/__init__.py:600-611)
with the host raycast result supplied as a parameter: a miss returns
`None` (no color); a hit defers to `pick_vertex_color_from_rayhit`. -/
def pick_vertex_color_from_mouse_coord (mesh : Mesh) (hit : RayHit) :
    Except String (Option Color) :=
  if hit.hit_ok then pick_vertex_color_from_rayhit mesh hit.location hit.face_index
  else .ok none

/-- Python's `round` on a rational value: round half to even.  Both
`round(c*255)` in `col_to_hex` and the rounding performed by the
`"{:.3f}"` format use this rule. -/
def pyround (q : ℚ) : ℤ :=
  let f := ⌊q⌋
  let r := q - f
  if r < 1/2 then f
  else if 1/2 < r then f + 1
  else if f % 2 = 0 then f else f + 1

/-- A single digit character for bases up to 16, uppercase. -/
def digit_char (n : Nat) : Char :=
  if n < 10 then Char.ofNat (48 + n) else Char.ofNat (55 + n)

/-- Digit string of `n` in base `base`, most significant first; fuel
recursion (`fuel = n+1` suffices). -/
def nat_to_chars_core (base : Nat) : Nat → Nat → List Char
  | 0, _ => []
  | fuel + 1, n =>
    if n < base then [digit_char n]
    else nat_to_chars_core base fuel (n / base) ++ [digit_char (n % base)]

/-- Decimal digit string of a natural number (Python `str`). -/
def nat_to_dec (n : Nat) : List Char := nat_to_chars_core 10 (n + 1) n

/-- Uppercase hexadecimal digit string of a natural number. -/
def nat_to_hex (n : Nat) : List Char := nat_to_chars_core 16 (n + 1) n

/-- Python `str(i)` for an integer. -/
def int_to_dec (i : Int) : List Char :=
  if i < 0 then '-' :: nat_to_dec (-i).toNat else nat_to_dec i.toNat

/-- Left-pad a digit string with zeros to width `k`. -/
def zero_pad (k : Nat) (s : List Char) : List Char :=
  List.replicate (k - s.length) '0' ++ s

/-- Python's `f"{i:02X}"`: uppercase hex, at least two characters wide
(the sign, when present, counts toward the width). -/
def format_02X (i : Int) : List Char :=
  if i < 0 then '-' :: zero_pad 1 (nat_to_hex (-i).toNat)
  else zero_pad 2 (nat_to_hex i.toNat)

/-- Python's `"{:.3f}".format` on a nonnegative rational: round the
value to 3 decimal places (half to even) and print with exactly three
fractional digits. -/
def format_3f_nonneg (q : ℚ) : List Char :=
  let m := (pyround (q * 1000)).toNat
  nat_to_dec (m / 1000) ++ '.' :: zero_pad 3 (nat_to_dec (m % 1000))

/-- Python's `"{:.3f}".format` on a rational. -/
def format_3f (q : ℚ) : List Char :=
  if q < 0 then '-' :: format_3f_nonneg (-q) else format_3f_nonneg q

/-- Embeds `f2s` (src/__init__.py:596-597): an integral value prints via
`str(int(f))` (no decimal point); any other value via `"{:.3f}"`. -/
def f2s (f : ℚ) : List Char :=
  if f.den = 1 then int_to_dec f.num else format_3f f

/-- Embeds `col_to_hex` (src/__init__.py:588-593): round each component
to `0..255` (half to even), print `#RRGGBB`, and append a fourth
two-digit group exactly when the list has 4 entries and the rounded
alpha differs from 255.  Fewer than 3 components is an `IndexError`. -/
def col_to_hex (col : List ℚ) : Except String (List Char) :=
  match col.map (fun c => pyround (c * 255)) with
  | b0 :: b1 :: b2 :: rest =>
    let s := '#' :: (format_02X b0 ++ format_02X b1 ++ format_02X b2)
    .ok (match rest with
         | [b3] => if b3 ≠ 255 then s ++ format_02X b3 else s
         | _ => s)
  | _ => .error "IndexError"

/-- Python's `", ".join`. -/
def join_comma : List (List Char) → List Char
  | [] => []
  | [s] => s
  | s :: rest => s ++ ',' :: ' ' :: join_comma rest

/-- The report-string construction of `VCU_OT_sample_vertex_color.do_sample`
(src/__init__.py:560-571): format the linear and display (sRGB) colors
as decimal lists and hex strings; if the two decimal strings coincide,
produce the single combined line, otherwise the two labeled ones. -/
def sample_report_str (col_lin col_srgb : List ℚ) : Except String (List Char) :=
  let col_lin_str := join_comma (col_lin.map f2s)
  let col_srgb_str := join_comma (col_srgb.map f2s)
  match col_to_hex col_lin, col_to_hex col_srgb with
  | .ok col_lin_hex_str, .ok col_srgb_hex_str =>
    if col_lin_str = col_srgb_str then
      .ok (("Color is  ".toList ++ col_lin_hex_str) ++
           (" (".toList ++ col_lin_str ++ [')']))
    else
      .ok (("Linear color is  ".toList ++ col_lin_hex_str) ++
           (" (".toList ++ col_lin_str) ++
           (")  |  SRGB color is ".toList ++ col_srgb_hex_str) ++
           (" (".toList ++ col_srgb_str ++ [')']))
  | .error e, _ => .error e
  | _, .error e => .error e

/-- The host-side state touched by the sampler's teardown.  The `has_*`
flags say whether the corresponding context attribute chain is usable;
when it is not, the host call raises (modelled as `.error`), which the
source swallows with `try/except`. -/
structure SamplerHost where
  has_window : Bool
  has_area : Bool
  has_window_manager : Bool
  has_vertex_paint : Bool
  has_workspace : Bool
  cursor_modal : Bool
  header_text : Option (List Char)
  active_timers : Nat
  show_brush : Bool
  status_text : Option (List Char)
deriving DecidableEq, Repr

/-- The two module-level globals of the sampler
(src/__init__.py:452-453). -/
structure SamplerGlobals where
  sample_vertex_color_timer : Option Nat
  prev_show_brush : Bool
deriving DecidableEq, Repr

/-- `context.window.cursor_modal_restore()`. -/
def cursor_modal_restore (h : SamplerHost) : Except String SamplerHost :=
  if h.has_window then .ok { h with cursor_modal := false }
  else .error "AttributeError"

/-- `context.area.header_text_set(None)`. -/
def header_text_set_none (h : SamplerHost) : Except String SamplerHost :=
  if h.has_area then .ok { h with header_text := none }
  else .error "AttributeError"

/-- `context.window_manager.event_timer_remove(t)`. -/
def event_timer_remove (h : SamplerHost) (t : Nat) : Except String SamplerHost :=
  if h.has_window_manager then .ok { h with active_timers := h.active_timers - 1 }
  else .error "AttributeError"

/-- `context.tool_settings.vertex_paint.show_brush = b`. -/
def set_show_brush (h : SamplerHost) (b : Bool) : Except String SamplerHost :=
  if h.has_vertex_paint then .ok { h with show_brush := b }
  else .error "AttributeError"

/-- `context.workspace.status_text_set(None)`. -/
def status_text_set_none (h : SamplerHost) : Except String SamplerHost :=
  if h.has_workspace then .ok { h with status_text := none }
  else .error "AttributeError"

/-- Embeds `sample_vertex_color_end` (src/__init__.py:455-475): five
teardown steps, each wrapped in its own `try/except: pass`, so a raising
step leaves its state unchanged and the next step still runs.  In the
timer step, the global is set to `None` only if the removal call did not
raise (the assignment follows the call inside the same `try`). -/
def sample_vertex_color_end (h : SamplerHost) (g : SamplerGlobals) :
    SamplerHost × SamplerGlobals :=
  let h1 := match cursor_modal_restore h with | .ok x => x | .error _ => h
  let h2 := match header_text_set_none h1 with | .ok x => x | .error _ => h1
  let step3 : SamplerHost × SamplerGlobals :=
    match g.sample_vertex_color_timer with
    | some t =>
      match event_timer_remove h2 t with
      | .ok x => (x, { g with sample_vertex_color_timer := none })
      | .error _ => (h2, g)
    | none => (h2, { g with sample_vertex_color_timer := none })
  let h3 := step3.1
  let g3 := step3.2
  let h4 := match set_show_brush h3 g3.prev_show_brush with | .ok x => x | .error _ => h3
  let h5 := match status_text_set_none h4 with | .ok x => x | .error _ => h4
  (h5, g3)

/-- The modal event types the sampler distinguishes. -/
inductive EventType where
  | TIMER
  | LEFTMOUSE
  | MIDDLEMOUSE
  | WHEELUPMOUSE
  | WHEELDOWNMOUSE
  | RIGHTMOUSE
  | ESC
  | OTHER
deriving DecidableEq, Repr

/-- A modal event: its type, whether its value is `PRESS`, and the ctrl
modifier. -/
structure Event where
  type : EventType
  value_press : Bool
  ctrl : Bool
deriving DecidableEq, Repr

/-- Modal handler return values. -/
inductive ModalResult where
  | RUNNING_MODAL
  | CANCELLED
  | PASS_THROUGH
deriving DecidableEq, Repr

/-- Embeds `VCU_OT_sample_vertex_color.modal` (src/__init__.py:494-518).
The sampling step `do_sample` is abstract (it is host raycasting plus
reporting); its host-state effect or raised exception is the parameter.
Returns the modal result (or the propagated exception), the new
`first_modal` flag, and the host/global state. -/
def sampler_modal (do_sample : SamplerHost → Except String SamplerHost)
    (first_modal : Bool) (h : SamplerHost) (g : SamplerGlobals) (ev : Event) :
    Except String ModalResult × Bool × SamplerHost × SamplerGlobals :=
  if first_modal ∨ ev.type = .TIMER ∨ (ev.type = .LEFTMOUSE ∧ ev.value_press) then
    match do_sample h with
    | .error e =>
      let cleaned := sample_vertex_color_end h g
      (.error e, false, cleaned.1, cleaned.2)
    | .ok h1 =>
      if ev.type = .LEFTMOUSE ∧ ¬ ev.ctrl then
        let cleaned := sample_vertex_color_end h1 g
        (.ok .CANCELLED, false, cleaned.1, cleaned.2)
      else (.ok .RUNNING_MODAL, false, h1, g)
  else if ev.type = .MIDDLEMOUSE ∨ ev.type = .WHEELUPMOUSE ∨ ev.type = .WHEELDOWNMOUSE then
    (.ok .PASS_THROUGH, first_modal, h, g)
  else if ev.type = .RIGHTMOUSE ∨ ev.type = .ESC then
    let cleaned := sample_vertex_color_end h g
    (.ok .CANCELLED, first_modal, cleaned.1, cleaned.2)
  else (.ok .RUNNING_MODAL, first_modal, h, g)

/-! ## Helper lemmas -/

lemma suffix_append_iff_of_length_le {pat t : List Char} (b : List Char)
    (h : pat.length ≤ t.length) : pat <:+ (b ++ t) ↔ pat <:+ t := by
  constructor
  · intro hs
    rw [List.suffix_iff_eq_drop] at hs
    rw [List.suffix_iff_eq_drop]
    have hlen : (b ++ t).length - pat.length = b.length + (t.length - pat.length) := by
      simp only [List.length_append]
      omega
    rw [hlen, List.drop_append] at hs
    exact hs
  · intro hs
    exact hs.trans (List.suffix_append b t)

lemma endswith_append_of_length_le (b t pat : List Char) (h : pat.length ≤ t.length) :
    endswith (b ++ t) pat = endswith t pat := by
  unfold endswith
  rw [Bool.eq_iff_iff]
  simp only [List.isSuffixOf_iff_suffix]
  exact suffix_append_iff_of_length_le b h

/-- The 8 valid mask channel codes of the mask-name grammar
(spec: `channelCode ∈ {R,G,B,A,RG,RB,GB,RGB}`). -/
def mask_codes : List (List Char) :=
  [['R'], ['G'], ['B'], ['A'], ['R','G'], ['R','B'], ['G','B'], ['R','G','B']]

lemma get_mask_parts_append (B C : List Char) (hC : C ∈ mask_codes) :
    attr_name_is_mask (B ++ ['_','_'] ++ C) = true ∧
    get_mask_name_parts (B ++ ['_','_'] ++ C) = (B, C) := by
  fin_cases hC
  · have e : B ++ ['_','_'] ++ ['R'] = B ++ ['_','_','R'] := by simp
    rw [e]
    have h1 : endswith (B ++ ['_','_','R']) ['_','_','R'] = true := by
      rw [endswith_append_of_length_le _ _ _ (by decide)]; decide
    refine ⟨by simp only [attr_name_is_mask, h1, Bool.true_or, Bool.or_true], ?_⟩
    have ht : (B ++ ['_','_','R']).length - 3 = B.length := by simp
    have hd : (B ++ ['_','_','R']).length - 1 = B.length + 2 := by simp
    simp only [get_mask_name_parts, h1, Bool.true_or, if_true, ht, hd,
      List.take_left, List.drop_append]
    simp
  · have e : B ++ ['_','_'] ++ ['G'] = B ++ ['_','_','G'] := by simp
    rw [e]
    have h0 : endswith (B ++ ['_','_','G']) ['_','_','R'] = false := by
      rw [endswith_append_of_length_le _ _ _ (by decide)]; decide
    have h1 : endswith (B ++ ['_','_','G']) ['_','_','G'] = true := by
      rw [endswith_append_of_length_le _ _ _ (by decide)]; decide
    refine ⟨by simp only [attr_name_is_mask, h1, Bool.true_or, Bool.or_true], ?_⟩
    have ht : (B ++ ['_','_','G']).length - 3 = B.length := by simp
    have hd : (B ++ ['_','_','G']).length - 1 = B.length + 2 := by simp
    simp only [get_mask_name_parts, h0, h1, Bool.true_or, Bool.false_or, if_true, ht, hd,
      List.take_left, List.drop_append]
    simp
  · have e : B ++ ['_','_'] ++ ['B'] = B ++ ['_','_','B'] := by simp
    rw [e]
    have h0 : endswith (B ++ ['_','_','B']) ['_','_','R'] = false := by
      rw [endswith_append_of_length_le _ _ _ (by decide)]; decide
    have h1 : endswith (B ++ ['_','_','B']) ['_','_','G'] = false := by
      rw [endswith_append_of_length_le _ _ _ (by decide)]; decide
    have h2 : endswith (B ++ ['_','_','B']) ['_','_','B'] = true := by
      rw [endswith_append_of_length_le _ _ _ (by decide)]; decide
    refine ⟨by simp only [attr_name_is_mask, h2, Bool.true_or, Bool.or_true], ?_⟩
    have ht : (B ++ ['_','_','B']).length - 3 = B.length := by simp
    have hd : (B ++ ['_','_','B']).length - 1 = B.length + 2 := by simp
    simp only [get_mask_name_parts, h0, h1, h2, Bool.true_or, Bool.false_or, if_true, ht, hd,
      List.take_left, List.drop_append]
    simp
  · have e : B ++ ['_','_'] ++ ['A'] = B ++ ['_','_','A'] := by simp
    rw [e]
    have h0 : endswith (B ++ ['_','_','A']) ['_','_','R'] = false := by
      rw [endswith_append_of_length_le _ _ _ (by decide)]; decide
    have h1 : endswith (B ++ ['_','_','A']) ['_','_','G'] = false := by
      rw [endswith_append_of_length_le _ _ _ (by decide)]; decide
    have h2 : endswith (B ++ ['_','_','A']) ['_','_','B'] = false := by
      rw [endswith_append_of_length_le _ _ _ (by decide)]; decide
    have h3 : endswith (B ++ ['_','_','A']) ['_','_','A'] = true := by
      rw [endswith_append_of_length_le _ _ _ (by decide)]; decide
    refine ⟨by simp only [attr_name_is_mask, h3, Bool.true_or, Bool.or_true], ?_⟩
    have ht : (B ++ ['_','_','A']).length - 3 = B.length := by simp
    have hd : (B ++ ['_','_','A']).length - 1 = B.length + 2 := by simp
    simp only [get_mask_name_parts, h0, h1, h2, h3, Bool.true_or, Bool.false_or, if_true,
      ht, hd, List.take_left, List.drop_append]
    simp
  · have e : B ++ ['_','_'] ++ ['R','G'] = B ++ ['_','_','R','G'] := by simp
    rw [e]
    have h0 : endswith (B ++ ['_','_','R','G']) ['_','_','R'] = false := by
      rw [endswith_append_of_length_le _ _ _ (by decide)]; decide
    have h1 : endswith (B ++ ['_','_','R','G']) ['_','_','G'] = false := by
      rw [endswith_append_of_length_le _ _ _ (by decide)]; decide
    have h2 : endswith (B ++ ['_','_','R','G']) ['_','_','B'] = false := by
      rw [endswith_append_of_length_le _ _ _ (by decide)]; decide
    have h3 : endswith (B ++ ['_','_','R','G']) ['_','_','A'] = false := by
      rw [endswith_append_of_length_le _ _ _ (by decide)]; decide
    have h4 : endswith (B ++ ['_','_','R','G']) ['_','_','R','G'] = true := by
      rw [endswith_append_of_length_le _ _ _ (by decide)]; decide
    refine ⟨by simp only [attr_name_is_mask, h4, Bool.true_or, Bool.or_true], ?_⟩
    have ht : (B ++ ['_','_','R','G']).length - 4 = B.length := by simp
    have hd : (B ++ ['_','_','R','G']).length - 2 = B.length + 2 := by simp
    simp only [get_mask_name_parts, h0, h1, h2, h3, h4, Bool.true_or, Bool.false_or,
      if_true, if_false, Bool.or_self, ht, hd, List.take_left, List.drop_append]
    simp
  · have e : B ++ ['_','_'] ++ ['R','B'] = B ++ ['_','_','R','B'] := by simp
    rw [e]
    have h0 : endswith (B ++ ['_','_','R','B']) ['_','_','R'] = false := by
      rw [endswith_append_of_length_le _ _ _ (by decide)]; decide
    have h1 : endswith (B ++ ['_','_','R','B']) ['_','_','G'] = false := by
      rw [endswith_append_of_length_le _ _ _ (by decide)]; decide
    have h2 : endswith (B ++ ['_','_','R','B']) ['_','_','B'] = false := by
      rw [endswith_append_of_length_le _ _ _ (by decide)]; decide
    have h3 : endswith (B ++ ['_','_','R','B']) ['_','_','A'] = false := by
      rw [endswith_append_of_length_le _ _ _ (by decide)]; decide
    have h4 : endswith (B ++ ['_','_','R','B']) ['_','_','R','G'] = false := by
      rw [endswith_append_of_length_le _ _ _ (by decide)]; decide
    have h5 : endswith (B ++ ['_','_','R','B']) ['_','_','R','B'] = true := by
      rw [endswith_append_of_length_le _ _ _ (by decide)]; decide
    refine ⟨by simp only [attr_name_is_mask, h5, Bool.true_or, Bool.or_true], ?_⟩
    have ht : (B ++ ['_','_','R','B']).length - 4 = B.length := by simp
    have hd : (B ++ ['_','_','R','B']).length - 2 = B.length + 2 := by simp
    simp only [get_mask_name_parts, h0, h1, h2, h3, h4, h5, Bool.true_or, Bool.false_or,
      if_true, if_false, Bool.or_self, ht, hd, List.take_left, List.drop_append]
    simp
  · have e : B ++ ['_','_'] ++ ['G','B'] = B ++ ['_','_','G','B'] := by simp
    rw [e]
    have h0 : endswith (B ++ ['_','_','G','B']) ['_','_','R'] = false := by
      rw [endswith_append_of_length_le _ _ _ (by decide)]; decide
    have h1 : endswith (B ++ ['_','_','G','B']) ['_','_','G'] = false := by
      rw [endswith_append_of_length_le _ _ _ (by decide)]; decide
    have h2 : endswith (B ++ ['_','_','G','B']) ['_','_','B'] = false := by
      rw [endswith_append_of_length_le _ _ _ (by decide)]; decide
    have h3 : endswith (B ++ ['_','_','G','B']) ['_','_','A'] = false := by
      rw [endswith_append_of_length_le _ _ _ (by decide)]; decide
    have h4 : endswith (B ++ ['_','_','G','B']) ['_','_','R','G'] = false := by
      rw [endswith_append_of_length_le _ _ _ (by decide)]; decide
    have h5 : endswith (B ++ ['_','_','G','B']) ['_','_','R','B'] = false := by
      rw [endswith_append_of_length_le _ _ _ (by decide)]; decide
    have h6 : endswith (B ++ ['_','_','G','B']) ['_','_','G','B'] = true := by
      rw [endswith_append_of_length_le _ _ _ (by decide)]; decide
    refine ⟨by simp only [attr_name_is_mask, h6, Bool.true_or, Bool.or_true], ?_⟩
    have ht : (B ++ ['_','_','G','B']).length - 4 = B.length := by simp
    have hd : (B ++ ['_','_','G','B']).length - 2 = B.length + 2 := by simp
    simp only [get_mask_name_parts, h0, h1, h2, h3, h4, h5, h6, Bool.true_or, Bool.false_or,
      if_true, if_false, Bool.or_self, ht, hd, List.take_left, List.drop_append]
    simp
  · have e : B ++ ['_','_'] ++ ['R','G','B'] = B ++ ['_','_','R','G','B'] := by simp
    rw [e]
    have h0 : endswith (B ++ ['_','_','R','G','B']) ['_','_','R'] = false := by
      rw [endswith_append_of_length_le _ _ _ (by decide)]; decide
    have h1 : endswith (B ++ ['_','_','R','G','B']) ['_','_','G'] = false := by
      rw [endswith_append_of_length_le _ _ _ (by decide)]; decide
    have h2 : endswith (B ++ ['_','_','R','G','B']) ['_','_','B'] = false := by
      rw [endswith_append_of_length_le _ _ _ (by decide)]; decide
    have h3 : endswith (B ++ ['_','_','R','G','B']) ['_','_','A'] = false := by
      rw [endswith_append_of_length_le _ _ _ (by decide)]; decide
    have h4 : endswith (B ++ ['_','_','R','G','B']) ['_','_','R','G'] = false := by
      rw [endswith_append_of_length_le _ _ _ (by decide)]; decide
    have h5 : endswith (B ++ ['_','_','R','G','B']) ['_','_','R','B'] = false := by
      rw [endswith_append_of_length_le _ _ _ (by decide)]; decide
    have h6 : endswith (B ++ ['_','_','R','G','B']) ['_','_','G','B'] = false := by
      rw [endswith_append_of_length_le _ _ _ (by decide)]; decide
    have h7 : endswith (B ++ ['_','_','R','G','B']) ['_','_','R','G','B'] = true := by
      rw [endswith_append_of_length_le _ _ _ (by decide)]; decide
    refine ⟨by simp only [attr_name_is_mask, h7, Bool.true_or, Bool.or_true], ?_⟩
    have ht : (B ++ ['_','_','R','G','B']).length - 5 = B.length := by simp
    have hd : (B ++ ['_','_','R','G','B']).length - 3 = B.length + 2 := by simp
    simp only [get_mask_name_parts, h0, h1, h2, h3, h4, h5, h6, h7, Bool.true_or,
      Bool.false_or, if_true, if_false, Bool.or_self, ht, hd, List.take_left,
      List.drop_append]
    simp

/-! ## Claim theorems -/

/-- C4: For every valid channel code `C` in the 8 mask codes and every
base name `B` containing no `__` substring, the name `B__C` is
recognized as a mask name and parsing it yields exactly `(B, C)`; a name
not ending in `__` followed by one of the 8 codes is not recognized as a
mask. -/
theorem claim_C4_mask_name_roundtrip :
    (∀ B C, C ∈ mask_codes → ¬ (['_','_'] <:+: B) →
      attr_name_is_mask (B ++ ['_','_'] ++ C) = true ∧
      get_mask_name_parts (B ++ ['_','_'] ++ C) = (B, C)) ∧
    (∀ n, (∀ C ∈ mask_codes, endswith n (['_','_'] ++ C) = false) →
      attr_name_is_mask n = false) := by
  refine ⟨fun B C hC _ => get_mask_parts_append B C hC, fun n h => ?_⟩
  have h0 := h ['R'] (by decide)
  have h1 := h ['G'] (by decide)
  have h2 := h ['B'] (by decide)
  have h3 := h ['A'] (by decide)
  have h4 := h ['R','G'] (by decide)
  have h5 := h ['R','B'] (by decide)
  have h6 := h ['G','B'] (by decide)
  have h7 := h ['R','G','B'] (by decide)
  simp only [List.cons_append, List.nil_append] at h0 h1 h2 h3 h4 h5 h6 h7
  simp [attr_name_is_mask, h0, h1, h2, h3, h4, h5, h6, h7]

/-- Witness for C4 at concrete inputs `B = "Base"`, `C = "RG"` and the
non-mask name `"plain"`. -/
theorem claim_C4_witness :
    (attr_name_is_mask ("Base".toList ++ ['_','_'] ++ ['R','G']) = true ∧
     get_mask_name_parts ("Base".toList ++ ['_','_'] ++ ['R','G']) =
       ("Base".toList, ['R','G'])) ∧
    attr_name_is_mask "plain".toList = false :=
  ⟨claim_C4_mask_name_roundtrip.1 "Base".toList ['R','G'] (by decide) (by decide),
   claim_C4_mask_name_roundtrip.2 "plain".toList (by decide)⟩

lemma check_conflict_eq_none_iff (attrs : List Attr) (base : List Char) (channels : List Char) :
    check_for_conflicting_mask attrs base channels = none ↔
      ∀ a ∈ attrs, attr_name_is_mask a.name = true →
        (get_mask_name_parts a.name).1 = base →
        ∀ c ∈ channels, c ∉ (get_mask_name_parts a.name).2 := by
  induction attrs with
  | nil => simp [check_for_conflicting_mask]
  | cons attr rest ih =>
    simp only [check_for_conflicting_mask]
    by_cases hm : attr_name_is_mask attr.name = true
    · rw [if_pos hm]
      by_cases hb : (get_mask_name_parts attr.name).1 = base
      · rw [if_pos hb]
        rcases hfind : (channels.find? (fun c => decide (c ∈ (get_mask_name_parts attr.name).2))) with _ | c
        · simp only [hfind, ih]
          constructor
          · intro h a ha
            rcases List.mem_cons.mp ha with rfl | ha2
            · intro _ _ x hx
              have hx2 := List.find?_eq_none.mp hfind x hx
              simpa using hx2
            · exact h a ha2
          · intro h a ha
            exact h a (List.mem_cons_of_mem _ ha)
        · have hc := List.find?_some hfind
          have hcmem := List.mem_of_find?_eq_some hfind
          simp only [decide_eq_true_eq] at hc
          simp only [hfind]
          constructor
          · intro h
            exact absurd h (by simp)
          · intro h
            exact absurd hc (h attr (List.mem_cons_self _ _) hm hb c hcmem)
      · rw [if_neg hb, ih]
        constructor
        · intro h a ha
          rcases List.mem_cons.mp ha with rfl | ha2
          · intro _ hbase
            exact absurd hbase hb
          · exact h a ha2
        · intro h a ha
          exact h a (List.mem_cons_of_mem _ ha)
    · rw [if_neg hm, ih]
      constructor
      · intro h a ha
        rcases List.mem_cons.mp ha with rfl | ha2
        · intro hmask
          exact absurd hmask hm
        · exact h a ha2
      · intro h a ha
        exact h a (List.mem_cons_of_mem _ ha)

lemma check_conflict_eq_some (attrs : List Attr) (base : List Char) (channels : List Char)
    (c : Char) (a : Attr)
    (h : check_for_conflicting_mask attrs base channels = some (c, a)) :
    a ∈ attrs ∧ attr_name_is_mask a.name = true ∧
    (get_mask_name_parts a.name).1 = base ∧
    c ∈ channels ∧ c ∈ (get_mask_name_parts a.name).2 := by
  induction attrs with
  | nil => simp [check_for_conflicting_mask] at h
  | cons attr rest ih =>
    simp only [check_for_conflicting_mask] at h
    by_cases hm : attr_name_is_mask attr.name = true
    · rw [if_pos hm] at h
      by_cases hb : (get_mask_name_parts attr.name).1 = base
      · rw [if_pos hb] at h
        rcases hfind : (channels.find? (fun x => decide (x ∈ (get_mask_name_parts attr.name).2))) with _ | x
        · simp only [hfind] at h
          have := ih h
          exact ⟨List.mem_cons_of_mem _ this.1, this.2⟩
        · simp only [hfind, Option.some.injEq, Prod.mk.injEq] at h
          obtain ⟨rfl, rfl⟩ := h
          have hx := List.find?_some hfind
          have hxm := List.mem_of_find?_eq_some hfind
          simp only [decide_eq_true_eq] at hx
          exact ⟨List.mem_cons_self _ _, hm, hb, hxm, hx⟩
      · rw [if_neg hb] at h
        have := ih h
        exact ⟨List.mem_cons_of_mem _ this.1, this.2⟩
    · rw [if_neg hm] at h
      have := ih h
      exact ⟨List.mem_cons_of_mem _ this.1, this.2⟩

/-- C3: Conflict detection over a layer collection returns, for a
requested base name and channel set, a pair (shared channel, existing
mask layer) whenever some layer parses as a mask of that base whose code
shares a channel with the request, and returns no conflict otherwise; in
particular, with an existing mask named `Base__RG`, requesting `{G}` on
`Base` yields a conflict on `'G'` pointing at `Base__RG`, and requesting
`{B}` yields no conflict. -/
theorem claim_C3_conflict_detection :
    (∀ (attrs : List Attr) (base : List Char) (channels : List Char),
      (check_for_conflicting_mask attrs base channels = none ↔
        ∀ a ∈ attrs, attr_name_is_mask a.name = true →
          (get_mask_name_parts a.name).1 = base →
          ∀ c ∈ channels, c ∉ (get_mask_name_parts a.name).2) ∧
      (∀ c a, check_for_conflicting_mask attrs base channels = some (c, a) →
        a ∈ attrs ∧ attr_name_is_mask a.name = true ∧
        (get_mask_name_parts a.name).1 = base ∧
        c ∈ channels ∧ c ∈ (get_mask_name_parts a.name).2)) ∧
    check_for_conflicting_mask
      [⟨"Base".toList, [], [], []⟩, ⟨"Base__RG".toList, [], [], []⟩]
      "Base".toList ['G'] =
      some ('G', ⟨"Base__RG".toList, [], [], []⟩) ∧
    check_for_conflicting_mask
      [⟨"Base".toList, [], [], []⟩, ⟨"Base__RG".toList, [], [], []⟩]
      "Base".toList ['B'] = none := by
  refine ⟨fun attrs base channels =>
    ⟨check_conflict_eq_none_iff attrs base channels,
     fun c a h => check_conflict_eq_some attrs base channels c a h⟩, ?_, ?_⟩
  · decide
  · decide

/-- Witness for C3: the `some` characterization applied to the concrete
`Base__RG` conflict. -/
theorem claim_C3_witness :
    (⟨"Base__RG".toList, [], [], []⟩ : Attr) ∈
      [⟨"Base".toList, [], [], []⟩, (⟨"Base__RG".toList, [], [], []⟩ : Attr)] ∧
    attr_name_is_mask ("Base__RG".toList : List Char) = true ∧
    (get_mask_name_parts "Base__RG".toList).1 = "Base".toList ∧
    'G' ∈ ['G'] ∧ 'G' ∈ (get_mask_name_parts "Base__RG".toList).2 :=
  (claim_C3_conflict_detection.1
    [⟨"Base".toList, [], [], []⟩, ⟨"Base__RG".toList, [], [], []⟩]
    "Base".toList ['G']).2 'G' ⟨"Base__RG".toList, [], [], []⟩ (by decide)

/-- C5: For every subset of `{R,G,B,A}`, `make_channel_str` returns
exactly `"A"` when the set contains `A`, and otherwise the concatenation
of `R`, `G`, `B` in that fixed order restricted to the members present;
re-deriving the string from the channel set of its own output returns
the same string. -/
theorem claim_C5_make_channel_str (S : List Char) (hS : ∀ c ∈ S, c ∈ ['R','G','B','A']) :
    ('A' ∈ S → make_channel_str S = ['A']) ∧
    ('A' ∉ S → make_channel_str S = ['R','G','B'].filter (fun c => decide (c ∈ S))) ∧
    make_channel_str (make_channel_set (make_channel_str S)) = make_channel_str S := by
  clear hS
  by_cases hA : 'A' ∈ S <;> by_cases hR : 'R' ∈ S <;> by_cases hG : 'G' ∈ S <;>
    by_cases hB : 'B' ∈ S <;>
    simp [make_channel_str, make_channel_set, hA, hR, hG, hB]

/-- Witness for C5 at the concrete channel set `{B, R}`. -/
theorem claim_C5_witness :
    (∀ c ∈ ['B','R'], c ∈ ['R','G','B','A']) ∧
    (('A' ∈ ['B','R'] → make_channel_str ['B','R'] = ['A']) ∧
     ('A' ∉ ['B','R'] →
        make_channel_str ['B','R'] = ['R','G','B'].filter (fun c => decide (c ∈ ['B','R']))) ∧
     make_channel_str (make_channel_set (make_channel_str ['B','R'])) =
       make_channel_str ['B','R']) :=
  ⟨by decide, claim_C5_make_channel_str ['B','R'] (by decide)⟩

lemma color_slots_identity (data : List Color) :
    data.map (fun c =>
      (⟨(color_slots c).getD 0 0, (color_slots c).getD 1 0,
        (color_slots c).getD 2 0, (color_slots c).getD 3 0⟩ : Color)) = data := by
  induction data with
  | nil => rfl
  | cons c rest ih =>
    rw [List.map_cons, ih]
    cases c
    rfl

/-- C8: For every color layer, swizzling with the code `RGBA` leaves
every element's color unchanged, and for any valid 4-character code each
element's new color is obtained by indexing the 6-slot source vector
`(r,g,b,a,0,1)` built entirely from that element's old color before any
write. -/
theorem claim_C8_swizzle_identity :
    (∀ data : List Color, swizzle_channels data ['R','G','B','A'] = .ok data) ∧
    (∀ (data : List Color) (c0 c1 c2 c3 : Char) (rest : List Char) (n0 n1 n2 n3 : Nat),
      swizzle_m c0 = some n0 → swizzle_m c1 = some n1 →
      swizzle_m c2 = some n2 → swizzle_m c3 = some n3 →
      swizzle_channels data (c0 :: c1 :: c2 :: c3 :: rest) =
        .ok (data.map (fun c =>
          ⟨(color_slots c).getD n0 0, (color_slots c).getD n1 0,
           (color_slots c).getD n2 0, (color_slots c).getD n3 0⟩))) := by
  constructor
  · intro data
    have e : swizzle_channels data ['R','G','B','A'] =
        .ok (data.map (fun c =>
          (⟨(color_slots c).getD 0 0, (color_slots c).getD 1 0,
            (color_slots c).getD 2 0, (color_slots c).getD 3 0⟩ : Color))) := rfl
    rw [e, color_slots_identity]
  · intro data c0 c1 c2 c3 rest n0 n1 n2 n3 h0 h1 h2 h3
    simp only [swizzle_channels, h0, h1, h2, h3]

/-- Witness for C8: the identity swizzle and the pointwise description
at a concrete one-element layer and the code `BGRR`. -/
theorem claim_C8_witness :
    swizzle_channels [⟨1, 1/2, 1/3, 1/4⟩] ['R','G','B','A'] = .ok [⟨1, 1/2, 1/3, 1/4⟩] ∧
    swizzle_channels [⟨1, 1/2, 1/3, 1/4⟩] ['B','G','R','R'] = .ok [⟨1/3, 1/2, 1, 1⟩] :=
  ⟨claim_C8_swizzle_identity.1 [⟨1, 1/2, 1/3, 1/4⟩],
   (claim_C8_swizzle_identity.2 [⟨1, 1/2, 1/3, 1/4⟩] 'B' 'G' 'R' 'R' [] 2 1 0 0
      rfl rfl rfl rfl).trans (by norm_num [color_slots])⟩

lemma length_eq_four {α : Type} (l : List α) (h : l.length = 4) :
    ∃ a b c d, l = [a, b, c, d] := by
  rcases l with _ | ⟨a, _ | ⟨b, _ | ⟨c, _ | ⟨d, _ | ⟨e, t⟩⟩⟩⟩⟩
  · simp at h
  · simp at h
  · simp at h
  · simp at h
  · exact ⟨a, b, c, d, rfl⟩
  · simp only [List.length_cons] at h
    omega

lemma swizzle_m_isSome_of_mem (x : Char) (hx : x ∈ ['R','G','B','A','0','1']) :
    ∃ n, swizzle_m x = some n := by
  fin_cases hx
  · exact ⟨0, rfl⟩
  · exact ⟨1, rfl⟩
  · exact ⟨2, rfl⟩
  · exact ⟨3, rfl⟩
  · exact ⟨4, rfl⟩
  · exact ⟨5, rfl⟩

lemma swizzle_channels_ok_of_valid (data : List Color) (s : List Char)
    (h4 : s.length = 4) (hv : ∀ x ∈ s, x ∈ ['R','G','B','A','0','1']) :
    ∃ d, swizzle_channels data s = .ok d := by
  obtain ⟨a, b, c, d, rfl⟩ := length_eq_four s h4
  obtain ⟨n0, h0⟩ := swizzle_m_isSome_of_mem a (hv a (by simp))
  obtain ⟨n1, h1⟩ := swizzle_m_isSome_of_mem b (hv b (by simp))
  obtain ⟨n2, h2⟩ := swizzle_m_isSome_of_mem c (hv c (by simp))
  obtain ⟨n3, h3⟩ := swizzle_m_isSome_of_mem d (hv d (by simp))
  exact ⟨data.map (fun x =>
    ⟨(color_slots x).getD n0 0, (color_slots x).getD n1 0,
     (color_slots x).getD n2 0, (color_slots x).getD n3 0⟩),
    by simp only [swizzle_channels, h0, h1, h2, h3]⟩

/-- C2: For every swizzle code string, the swizzle command fails with an
`INVALID_INPUT` error, a fixed message and the active layer's elements
unchanged exactly when the code is not 4 characters long or contains
(case-insensitively) a character outside `{R,G,B,A,0,1}`; when the code
is valid but omits some letter of `R,G,B,A`, the command emits a warning
yet still performs the transform. -/
theorem claim_C2_swizzle_validation (data : List Color) (s : List Char) :
    (¬ (s.length = 4 ∧ ∀ x ∈ s.map Char.toUpper, x ∈ ['R','G','B','A','0','1']) ↔
      swizzle_execute data s =
        .ok ([⟨.ERROR_INVALID_INPUT, swizzle_invalid_input_err_msg⟩], .CANCELLED, data)) ∧
    ((s.length = 4 ∧ (∀ x ∈ s.map Char.toUpper, x ∈ ['R','G','B','A','0','1']) ∧
        ¬ ('R' ∈ s.map Char.toUpper ∧ 'G' ∈ s.map Char.toUpper ∧
           'B' ∈ s.map Char.toUpper ∧ 'A' ∈ s.map Char.toUpper)) →
      ∃ d, swizzle_channels data (s.map Char.toUpper) = .ok d ∧
        swizzle_execute data s =
          .ok ([⟨.WARNING, "One or more channels will be lost in this swizzle operation."⟩],
               .FINISHED, d)) := by
  by_cases h4 : s.length = 4
  · by_cases hall : ∀ x ∈ s.map Char.toUpper, x ∈ ['R','G','B','A','0','1']
    · have hall_eq : ((s.map Char.toUpper).all
          (fun x => ['R','G','B','A','0','1'].contains x)) = true := by
        rw [List.all_eq_true]
        intro x hx
        exact List.elem_iff.mpr (hall x hx)
      obtain ⟨d, hd⟩ := swizzle_channels_ok_of_valid data (s.map Char.toUpper)
        (by simpa using h4) hall
      have hex : swizzle_execute data s =
          .ok ((if ('R' ∈ s.map Char.toUpper ∧ 'G' ∈ s.map Char.toUpper ∧
                    'B' ∈ s.map Char.toUpper ∧ 'A' ∈ s.map Char.toUpper) then ([] : List Report)
                else [⟨.WARNING,
                  "One or more channels will be lost in this swizzle operation."⟩]),
               .FINISHED, d) := by
        simp only [swizzle_execute]
        rw [if_neg (fun hc => hc h4), if_pos hall_eq]
        simp only [hd]
      constructor
      · rw [hex]
        constructor
        · intro hc
          exact absurd ⟨h4, hall⟩ hc
        · intro hc
          rcases (by split at hc <;> simpa using hc :
            (OpStatus.FINISHED, d) = (OpStatus.CANCELLED, data)) with h
          simp at h
      · intro hmiss
        refine ⟨d, hd, ?_⟩
        rw [hex, if_neg hmiss.2.2]
    · have hall_eq : ((s.map Char.toUpper).all
          (fun x => ['R','G','B','A','0','1'].contains x)) = false := by
        rw [List.all_eq_false]
        push_neg at hall
        obtain ⟨x, hx, hnot⟩ := hall
        exact ⟨x, hx, fun hc => hnot (List.elem_iff.mp hc)⟩
      have hex : swizzle_execute data s =
          .ok ([⟨.ERROR_INVALID_INPUT, swizzle_invalid_input_err_msg⟩], .CANCELLED, data) := by
        simp only [swizzle_execute]
        rw [if_neg (fun hc => hc h4),
          if_neg (fun hc => by rw [hall_eq] at hc; exact Bool.false_ne_true hc)]
      constructor
      · rw [hex]
        exact iff_of_true (fun hc => hall hc.2) rfl
      · intro hmiss
        exact absurd hmiss.2.1 hall
  · have hex : swizzle_execute data s =
        .ok ([⟨.ERROR_INVALID_INPUT, swizzle_invalid_input_err_msg⟩], .CANCELLED, data) := by
      simp only [swizzle_execute]
      rw [if_pos h4]
    constructor
    · rw [hex]
      exact iff_of_true (fun hc => h4 hc.1) rfl
    · intro hmiss
      exact absurd hmiss.1 h4

/-- Witness for C2: the invalid code `"xgr1"` is rejected with the layer
untouched; the valid code `"bgr1"` (alpha missing) warns and transforms. -/
theorem claim_C2_witness :
    swizzle_execute [⟨1, 1/2, 1/3, 1/4⟩] "xgr1".toList =
      .ok ([⟨.ERROR_INVALID_INPUT, swizzle_invalid_input_err_msg⟩], .CANCELLED,
           [⟨1, 1/2, 1/3, 1/4⟩]) ∧
    (∃ d, swizzle_channels [⟨1, 1/2, 1/3, 1/4⟩] ("bgr1".toList.map Char.toUpper) = .ok d ∧
      swizzle_execute [⟨1, 1/2, 1/3, 1/4⟩] "bgr1".toList =
        .ok ([⟨.WARNING, "One or more channels will be lost in this swizzle operation."⟩],
             .FINISHED, d)) :=
  ⟨(claim_C2_swizzle_validation [⟨1, 1/2, 1/3, 1/4⟩] "xgr1".toList).1.mp (by decide),
   (claim_C2_swizzle_validation [⟨1, 1/2, 1/3, 1/4⟩] "bgr1".toList).2 (by decide)⟩

/-- C9: If any error is raised during a sampler tick's sampling step,
the full cleanup routine runs before the failure propagates to the host,
and every individual cleanup step (cursor restore, header clear, timer
removal, brush-visibility restore, status clear) succeeds independently
even when its resource is already absent, so no cleanup step can prevent
the others from running. -/
theorem claim_C9_cleanup_on_error :
    (∀ (do_sample : SamplerHost → Except String SamplerHost) (first_modal : Bool)
        (h : SamplerHost) (g : SamplerGlobals) (ev : Event) (e : String),
      (first_modal ∨ ev.type = .TIMER ∨ (ev.type = .LEFTMOUSE ∧ ev.value_press)) →
      do_sample h = .error e →
      sampler_modal do_sample first_modal h g ev =
        (.error e, false, (sample_vertex_color_end h g).1,
         (sample_vertex_color_end h g).2)) ∧
    (∀ (h : SamplerHost) (g : SamplerGlobals),
      (h.has_window = true → (sample_vertex_color_end h g).1.cursor_modal = false) ∧
      (h.has_area = true → (sample_vertex_color_end h g).1.header_text = none) ∧
      ((g.sample_vertex_color_timer = none ∨ h.has_window_manager = true) →
        (sample_vertex_color_end h g).2.sample_vertex_color_timer = none) ∧
      (h.has_vertex_paint = true →
        (sample_vertex_color_end h g).1.show_brush = g.prev_show_brush) ∧
      (h.has_workspace = true →
        (sample_vertex_color_end h g).1.status_text = none)) := by
  constructor
  · intro do_sample first_modal h g ev e htrig hsample
    simp only [sampler_modal]
    rw [if_pos htrig]
    simp only [hsample]
  · intro h g
    rcases h with ⟨w, ar, wm, vp, ws, cm, htx, tmr, sb, st⟩
    rcases g with ⟨gt, pb⟩
    cases w <;> cases ar <;> cases wm <;> cases vp <;> cases ws <;> rcases gt with _ | t <;>
      simp [sample_vertex_color_end, cursor_modal_restore, header_text_set_none,
        event_timer_remove, set_show_brush, status_text_set_none]

/-- Witness for C9 at a concrete failing sample, a fully available
context and an armed timer. -/
theorem claim_C9_witness :
    sampler_modal (fun _ => .error "boom") true
        ⟨true, true, true, true, true, true, some ['h'], 1, false, some ['s']⟩
        ⟨some 1, true⟩ ⟨.OTHER, false, false⟩ =
      (.error "boom", false,
       (sample_vertex_color_end
          ⟨true, true, true, true, true, true, some ['h'], 1, false, some ['s']⟩
          ⟨some 1, true⟩).1,
       (sample_vertex_color_end
          ⟨true, true, true, true, true, true, some ['h'], 1, false, some ['s']⟩
          ⟨some 1, true⟩).2) ∧
    (sample_vertex_color_end
        ⟨true, true, true, true, true, true, some ['h'], 1, false, some ['s']⟩
        ⟨some 1, true⟩).1.cursor_modal = false ∧
    (sample_vertex_color_end
        ⟨true, true, true, true, true, true, some ['h'], 1, false, some ['s']⟩
        ⟨some 1, true⟩).2.sample_vertex_color_timer = none :=
  ⟨claim_C9_cleanup_on_error.1 (fun _ => .error "boom") true
      ⟨true, true, true, true, true, true, some ['h'], 1, false, some ['s']⟩
      ⟨some 1, true⟩ ⟨.OTHER, false, false⟩ "boom" (Or.inl rfl) rfl,
   (claim_C9_cleanup_on_error.2
      ⟨true, true, true, true, true, true, some ['h'], 1, false, some ['s']⟩
      ⟨some 1, true⟩).1 rfl,
   (claim_C9_cleanup_on_error.2
      ⟨true, true, true, true, true, true, some ['h'], 1, false, some ['s']⟩
      ⟨some 1, true⟩).2.2.1 (Or.inr rfl)⟩

/-- Specification predicate (the spec's words): `k` is the first index
attaining the minimum of the distance list `ds` ("minimum Euclidean
distance, ties broken by first-encountered"). -/
def is_first_argmin (ds : List ℚ) (k : Nat) : Prop :=
  k < ds.length ∧
  (∀ j, j < ds.length → ds.getD k 0 ≤ ds.getD j 0) ∧
  (∀ j, j < k → ds.getD k 0 < ds.getD j 0)

/-- The squared distances from the hit location to the given face
vertices (the quantities whose comparisons drive the source's loop). -/
def face_dists (mesh : Mesh) (hit : Point) (l : List Nat) : List ℚ :=
  l.map (fun v => dist2 (mesh.vertices.getD v ⟨0, 0, 0⟩) hit)

lemma pyget_nat {α : Type} (l : List α) (v : Nat) (h : v < l.length) (d : α) :
    pyget l (v : Int) = .ok (l.getD v d) := by
  have h0 : ¬ ((v : Int) < 0) := by omega
  have hsome : l[((v : Int)).toNat]? = some (l.getD v d) := by
    rw [Int.toNat_natCast, List.getElem?_eq_getElem h, List.getD_eq_getElem _ _ h]
  rw [pyget]
  simp only [h0, if_false, hsome]
  rw [if_pos (by omega : (0 : Int) ≤ (v : Int))]

lemma closest_vertex_loop_spec (mesh : Mesh) (hit : Point) :
    ∀ (rest pre : List Nat) (m : ℚ) (k : Nat),
      (∀ v ∈ rest, v < mesh.vertices.length) →
      k < pre.length →
      (face_dists mesh hit pre).getD k 0 = m →
      (∀ j, j < pre.length → m ≤ (face_dists mesh hit pre).getD j 0) →
      (∀ j, j < k → m < (face_dists mesh hit pre).getD j 0) →
      ∃ (mf : ℚ) (kf : Nat),
        closest_vertex_loop mesh hit rest pre.length (some m) (k : Int) =
          .ok (some mf, (kf : Int)) ∧
        (face_dists mesh hit (pre ++ rest)).getD kf 0 = mf ∧
        is_first_argmin (face_dists mesh hit (pre ++ rest)) kf := by
  intro rest
  induction rest with
  | nil =>
    intro pre m k hv hk hget hmin hstrict
    refine ⟨m, k, by rw [closest_vertex_loop], ?_, ?_⟩
    · rw [List.append_nil]
      exact hget
    · rw [List.append_nil]
      simp only [is_first_argmin]
      refine ⟨by simpa [face_dists] using hk, ?_, ?_⟩
      · intro j hj
        rw [hget]
        exact hmin j (by simpa [face_dists] using hj)
      · intro j hj
        rw [hget]
        exact hstrict j hj
  | cons v tail ih =>
    intro pre m k hv hk hget hmin hstrict
    have hvlt : v < mesh.vertices.length := hv v (by simp)
    have hvtail : ∀ x ∈ tail, x < mesh.vertices.length := fun x hx => hv x (by simp [hx])
    have hlen_pre : (face_dists mesh hit pre).length = pre.length := by simp [face_dists]
    set d := dist2 (mesh.vertices.getD v ⟨0,0,0⟩) hit with hd
    have hdists_app : face_dists mesh hit (pre ++ [v]) = face_dists mesh hit pre ++ [d] := by
      simp [face_dists, hd]
    have hstep : closest_vertex_loop mesh hit (v :: tail) pre.length (some m) (k : Int) =
        if dist_lt d (some m) then
          closest_vertex_loop mesh hit tail (pre.length + 1) (some d) (pre.length : Int)
        else
          closest_vertex_loop mesh hit tail (pre.length + 1) (some m) (k : Int) := by
      rw [closest_vertex_loop]
      rw [pyget_nat mesh.vertices v hvlt (⟨0,0,0⟩ : Point)]
    have hassoc : (pre ++ [v]) ++ tail = pre ++ (v :: tail) := by simp
    have hlen1 : (pre ++ [v]).length = pre.length + 1 := by simp
    by_cases hlt : d < m
    · have hb : dist_lt d (some m) = true := by simp [dist_lt, hlt]
      rw [hstep, if_pos hb]
      have hk' : pre.length < (pre ++ [v]).length := by simp
      have hget' : (face_dists mesh hit (pre ++ [v])).getD pre.length 0 = d := by
        rw [hdists_app,
          List.getD_append_right (face_dists mesh hit pre) _ _ _ hlen_pre.le]
        simp [hlen_pre]
      have hmin' : ∀ j, j < (pre ++ [v]).length →
          d ≤ (face_dists mesh hit (pre ++ [v])).getD j 0 := by
        intro j hj
        rw [hlen1] at hj
        rcases Nat.lt_or_ge j pre.length with hjp | hjp
        · rw [hdists_app, List.getD_append _ _ _ _ (by simpa [hlen_pre] using hjp)]
          exact le_of_lt (lt_of_lt_of_le hlt (hmin j hjp))
        · have hj_eq : j = pre.length := by omega
          rw [hj_eq, hdists_app,
            List.getD_append_right (face_dists mesh hit pre) _ _ _ hlen_pre.le]
          simp [hlen_pre]
      have hstrict' : ∀ j, j < pre.length →
          d < (face_dists mesh hit (pre ++ [v])).getD j 0 := by
        intro j hj
        rw [hdists_app, List.getD_append _ _ _ _ (by simpa [hlen_pre] using hj)]
        exact lt_of_lt_of_le hlt (hmin j hj)
      obtain ⟨mf, kf, hrun, hgd, hargmin⟩ :=
        ih (pre ++ [v]) d pre.length hvtail hk' hget' hmin' hstrict'
      rw [hlen1] at hrun
      rw [hassoc] at hgd hargmin
      exact ⟨mf, kf, hrun, hgd, hargmin⟩
    · have hb : dist_lt d (some m) = false := by simp [dist_lt, hlt]
      rw [hstep, if_neg (by simp [hb])]
      have hk' : k < (pre ++ [v]).length := by
        rw [hlen1]
        omega
      have hget' : (face_dists mesh hit (pre ++ [v])).getD k 0 = m := by
        rw [hdists_app, List.getD_append _ _ _ _ (by simpa [hlen_pre] using hk)]
        exact hget
      have hmin' : ∀ j, j < (pre ++ [v]).length →
          m ≤ (face_dists mesh hit (pre ++ [v])).getD j 0 := by
        intro j hj
        rw [hlen1] at hj
        rcases Nat.lt_or_ge j pre.length with hjp | hjp
        · rw [hdists_app, List.getD_append _ _ _ _ (by simpa [hlen_pre] using hjp)]
          exact hmin j hjp
        · have hj_eq : j = pre.length := by omega
          rw [hj_eq, hdists_app,
            List.getD_append_right (face_dists mesh hit pre) _ _ _ hlen_pre.le]
          simp only [hlen_pre, Nat.sub_self]
          simpa using le_of_not_lt hlt
      have hstrict' : ∀ j, j < k →
          m < (face_dists mesh hit (pre ++ [v])).getD j 0 := by
        intro j hj
        have hjp : j < pre.length := lt_trans hj hk
        rw [hdists_app, List.getD_append _ _ _ _ (by simpa [hlen_pre] using hjp)]
        exact hstrict j hj
      obtain ⟨mf, kf, hrun, hgd, hargmin⟩ :=
        ih (pre ++ [v]) m k hvtail hk' hget' hmin' hstrict'
      rw [hlen1] at hrun
      rw [hassoc] at hgd hargmin
      exact ⟨mf, kf, hrun, hgd, hargmin⟩

lemma closest_vertex_loop_main (mesh : Mesh) (hit : Point) (l : List Nat)
    (hne : l ≠ []) (hv : ∀ v ∈ l, v < mesh.vertices.length) :
    ∃ (m : ℚ) (k : Nat),
      closest_vertex_loop mesh hit l 0 none (-1) = .ok (some m, (k : Int)) ∧
      (face_dists mesh hit l).getD k 0 = m ∧
      is_first_argmin (face_dists mesh hit l) k := by
  rcases l with _ | ⟨v, tail⟩
  · exact absurd rfl hne
  · have hvlt : v < mesh.vertices.length := hv v (by simp)
    have hvtail : ∀ x ∈ tail, x < mesh.vertices.length := fun x hx => hv x (by simp [hx])
    have hstep : closest_vertex_loop mesh hit (v :: tail) 0 none (-1) =
        closest_vertex_loop mesh hit tail 1
          (some (dist2 (mesh.vertices.getD v ⟨0,0,0⟩) hit)) ((0 : Nat) : Int) := by
      rw [closest_vertex_loop, pyget_nat mesh.vertices v hvlt (⟨0,0,0⟩ : Point)]
      simp [dist_lt]
    obtain ⟨m, k, hrun, hgd, hargmin⟩ := closest_vertex_loop_spec mesh hit tail [v]
      (dist2 (mesh.vertices.getD v ⟨0,0,0⟩) hit) 0 hvtail (by simp)
      (by simp [face_dists])
      (by
        intro j hj
        simp only [List.length_cons, List.length_nil] at hj
        have hj0 : j = 0 := by omega
        subst hj0
        simp [face_dists])
      (by intro j hj; omega)
    refine ⟨m, k, ?_, by simpa using hgd, by simpa using hargmin⟩
    rw [hstep]
    simpa using hrun

lemma closest_vertex_loop_best_range (mesh : Mesh) (hit : Point) :
    ∀ (rest : List Nat) (i : Nat) (m : ℚ) (b : Int) (mdf : Option ℚ) (bf : Int),
      closest_vertex_loop mesh hit rest i (some m) b = .ok (mdf, bf) →
      bf = b ∨ ∃ j, j < rest.length ∧ bf = ((i + j : Nat) : Int) := by
  intro rest
  induction rest with
  | nil =>
    intro i m b mdf bf h
    rw [closest_vertex_loop] at h
    simp only [Except.ok.injEq, Prod.mk.injEq] at h
    exact Or.inl h.2.symm
  | cons v tail ih =>
    intro i m b mdf bf h
    rw [closest_vertex_loop] at h
    rcases hp : pyget mesh.vertices (v : Int) with e | x
    · rw [hp] at h
      simp at h
    · simp only [hp] at h
      by_cases hlt : dist_lt (dist2 x hit) (some m) = true
      · rw [if_pos hlt] at h
        rcases ih (i + 1) (dist2 x hit) (i : Int) mdf bf h with hb | ⟨j, hj, hbf⟩
        · exact Or.inr ⟨0, by simp, by simpa using hb⟩
        · refine Or.inr ⟨j + 1, by simpa using hj, ?_⟩
          rw [hbf]
          congr 1
          omega
      · rw [if_neg hlt] at h
        rcases ih (i + 1) m b mdf bf h with hb | ⟨j, hj, hbf⟩
        · exact Or.inl hb
        · refine Or.inr ⟨j + 1, by simpa using hj, ?_⟩
          rw [hbf]
          congr 1
          omega

lemma closest_vertex_loop_start_range (mesh : Mesh) (hit : Point) (l : List Nat)
    (hne : l ≠ []) (mdf : Option ℚ) (bf : Int)
    (h : closest_vertex_loop mesh hit l 0 none (-1) = .ok (mdf, bf)) :
    ∃ k : Nat, bf = (k : Int) ∧ k < l.length := by
  rcases l with _ | ⟨v, tail⟩
  · exact absurd rfl hne
  · rw [closest_vertex_loop] at h
    rcases hp : pyget mesh.vertices (v : Int) with e | x
    · rw [hp] at h
      simp at h
    · simp only [hp] at h
      rw [if_pos (show dist_lt (dist2 x hit) none = true from rfl)] at h
      rcases closest_vertex_loop_best_range mesh hit tail 1 (dist2 x hit)
          ((0 : Nat) : Int) mdf bf (by simpa using h) with hb | ⟨j, hj, hbf⟩
      · exact ⟨0, by simpa using hb, by simp⟩
      · exact ⟨1 + j, hbf, by simp only [List.length_cons]; omega⟩

/-- A concrete 3-vertex mesh whose single face's vertices lie at
Euclidean distances 2.0, 0.5 and 1.7 from the origin. -/
def sample_mesh : Mesh :=
  { vertices := [⟨2,0,0⟩, ⟨1/2,0,0⟩, ⟨17/10,0,0⟩],
    num_loops := 3,
    polygons := [⟨[0,1,2], [0,1,2]⟩],
    color_attributes :=
      [⟨['C','o','l'], [], ['P','O','I','N','T'],
        [⟨1,0,0,1⟩, ⟨0,1,0,1⟩, ⟨0,0,1,1⟩]⟩],
    active_color_name := ['C','o','l'] }

lemma sample_loop_eval :
    closest_vertex_loop sample_mesh ⟨0,0,0⟩ [0, 1, 2] 0 none (-1) =
      .ok (some (1/4 : ℚ), ((1 : Nat) : Int)) := by
  have hv0 : pyget sample_mesh.vertices ((0 : Nat) : Int) = .ok (⟨2,0,0⟩ : Point) := rfl
  have hv1 : pyget sample_mesh.vertices ((1 : Nat) : Int) = .ok (⟨1/2,0,0⟩ : Point) := rfl
  have hv2 : pyget sample_mesh.vertices ((2 : Nat) : Int) = .ok (⟨17/10,0,0⟩ : Point) := rfl
  have hc1 : dist_lt (dist2 ⟨1/2,0,0⟩ ⟨0,0,0⟩) (some (dist2 ⟨2,0,0⟩ ⟨0,0,0⟩)) = true := by
    norm_num [dist_lt, dist2]
  have hc2 : dist_lt (dist2 ⟨17/10,0,0⟩ ⟨0,0,0⟩) (some (dist2 ⟨1/2,0,0⟩ ⟨0,0,0⟩)) = false := by
    norm_num [dist_lt, dist2]
  have hc2n : ¬ (dist_lt (dist2 ⟨17/10,0,0⟩ ⟨0,0,0⟩)
      (some (dist2 ⟨1/2,0,0⟩ ⟨0,0,0⟩)) = true) := by
    rw [hc2]
    exact Bool.false_ne_true
  simp only [closest_vertex_loop, hv0, hv1, hv2]
  rw [if_pos (show dist_lt (dist2 ⟨2,0,0⟩ ⟨0,0,0⟩) none = true from rfl)]
  rw [if_pos hc1]
  rw [if_neg hc2n]
  norm_num [dist2]

lemma sample_pick_eval :
    pick_vertex_color_from_rayhit sample_mesh ⟨0,0,0⟩ 0 = .ok (some ⟨0,1,0,1⟩) := by
  have hfind : attrs_find sample_mesh.color_attributes sample_mesh.active_color_name =
      some ⟨['C','o','l'], [], ['P','O','I','N','T'],
        [⟨1,0,0,1⟩, ⟨0,1,0,1⟩, ⟨0,0,1,1⟩]⟩ := rfl
  have hface : pyget sample_mesh.polygons (0 : Int) = .ok ⟨[0,1,2], [0,1,2]⟩ := rfl
  have hp1 : pyget [0, 1, 2] ((1 : Nat) : Int) = .ok 1 := rfl
  have hp2 : pyget [(⟨1,0,0,1⟩ : Color), ⟨0,1,0,1⟩, ⟨0,0,1,1⟩] ((1 : Nat) : Int) =
      .ok (⟨0,1,0,1⟩ : Color) := rfl
  simp only [pick_vertex_color_from_rayhit, hfind, hface]
  rw [if_neg (by decide)]
  simp only [sample_loop_eval]
  rw [if_pos trivial, if_neg (by decide)]
  simp only [hp1, hp2]

/-- C6: For every non-empty face vertex list and hit point, the sampler
selects the face vertex at minimum (squared, hence Euclidean) distance
to the hit point, ties broken in favor of the lowest local index; for
distances `[2.0, 0.5, 1.7]` it selects local index 1; the color is then
read at the mesh vertex index for a `POINT`-domain layer and at the
corresponding face-loop index for a `CORNER`-domain layer. -/
theorem claim_C6_closest_vertex_selection :
    (∀ (mesh : Mesh) (hit : Point) (l : List Nat),
      l ≠ [] → (∀ v ∈ l, v < mesh.vertices.length) →
      ∃ (m : ℚ) (k : Nat),
        closest_vertex_loop mesh hit l 0 none (-1) = .ok (some m, (k : Int)) ∧
        is_first_argmin (face_dists mesh hit l) k) ∧
    (∀ (mesh : Mesh) (color_attr : Attr) (hit : Point) (fidx : Int) (face : Face),
      attrs_find mesh.color_attributes mesh.active_color_name = some color_attr →
      pyget mesh.polygons fidx = .ok face →
      face.vertices ≠ [] →
      (∀ v ∈ face.vertices, v < mesh.vertices.length) →
      color_attr.domain = ['P','O','I','N','T'] →
      color_attr.data.length = mesh.vertices.length →
      ∃ (m : ℚ) (k : Nat),
        is_first_argmin (face_dists mesh hit face.vertices) k ∧
        closest_vertex_loop mesh hit face.vertices 0 none (-1) = .ok (some m, (k : Int)) ∧
        pick_vertex_color_from_rayhit mesh hit fidx =
          .ok (some (color_attr.data.getD (face.vertices.getD k 0) default_color))) ∧
    (∀ (mesh : Mesh) (color_attr : Attr) (hit : Point) (fidx : Int) (face : Face),
      attrs_find mesh.color_attributes mesh.active_color_name = some color_attr →
      pyget mesh.polygons fidx = .ok face →
      face.vertices ≠ [] →
      (∀ v ∈ face.vertices, v < mesh.vertices.length) →
      color_attr.domain = ['C','O','R','N','E','R'] →
      color_attr.data.length = mesh.num_loops →
      face.loop_indices.length = face.vertices.length →
      (∀ x ∈ face.loop_indices, x < mesh.num_loops) →
      ∃ (m : ℚ) (k : Nat),
        is_first_argmin (face_dists mesh hit face.vertices) k ∧
        closest_vertex_loop mesh hit face.vertices 0 none (-1) = .ok (some m, (k : Int)) ∧
        pick_vertex_color_from_rayhit mesh hit fidx =
          .ok (some (color_attr.data.getD (face.loop_indices.getD k 0) default_color))) ∧
    closest_vertex_loop sample_mesh ⟨0,0,0⟩ [0,1,2] 0 none (-1) =
      .ok (some (1/4 : ℚ), ((1 : Nat) : Int)) ∧
    pick_vertex_color_from_rayhit sample_mesh ⟨0,0,0⟩ 0 = .ok (some ⟨0,1,0,1⟩) := by
  refine ⟨?_, ?_, ?_, ?_, ?_⟩
  · intro mesh hit l hne hv
    obtain ⟨m, k, hrun, _, hargmin⟩ := closest_vertex_loop_main mesh hit l hne hv
    exact ⟨m, k, hrun, hargmin⟩
  · intro mesh color_attr hit fidx face hfind hface hne hv hdom hlen
    obtain ⟨m, k, hrun, _, hargmin⟩ :=
      closest_vertex_loop_main mesh hit face.vertices hne hv
    have hk : k < face.vertices.length := by
      have := hargmin.1
      simpa [face_dists] using this
    have hvi_mem : face.vertices.getD k 0 ∈ face.vertices := by
      rw [List.getD_eq_getElem _ _ hk]
      exact List.getElem_mem hk
    have hvi : face.vertices.getD k 0 < color_attr.data.length := by
      rw [hlen]
      exact hv _ hvi_mem
    refine ⟨m, k, hargmin, hrun, ?_⟩
    simp only [pick_vertex_color_from_rayhit, hfind, hface]
    rw [if_neg (fun hc => hne (List.length_eq_zero.mp hc))]
    simp only [hrun]
    rw [if_pos hdom, if_neg (fun hc => hc hlen)]
    simp only [pyget_nat face.vertices k hk 0,
      pyget_nat color_attr.data (face.vertices.getD k 0) hvi default_color]
  · intro mesh color_attr hit fidx face hfind hface hne hv hdom hlen hcorr hvl
    obtain ⟨m, k, hrun, _, hargmin⟩ :=
      closest_vertex_loop_main mesh hit face.vertices hne hv
    have hk : k < face.vertices.length := by
      have := hargmin.1
      simpa [face_dists] using this
    have hkl : k < face.loop_indices.length := by omega
    have hli_mem : face.loop_indices.getD k 0 ∈ face.loop_indices := by
      rw [List.getD_eq_getElem _ _ hkl]
      exact List.getElem_mem hkl
    have hli : face.loop_indices.getD k 0 < color_attr.data.length := by
      rw [hlen]
      exact hvl _ hli_mem
    refine ⟨m, k, hargmin, hrun, ?_⟩
    simp only [pick_vertex_color_from_rayhit, hfind, hface]
    rw [if_neg (fun hc => hne (List.length_eq_zero.mp hc))]
    simp only [hrun]
    rw [hdom]
    rw [if_neg (by decide), if_pos rfl, if_neg (fun hc => hc hlen)]
    simp only [pyget_nat face.loop_indices k hkl 0,
      pyget_nat color_attr.data (face.loop_indices.getD k 0) hli default_color]
  · exact sample_loop_eval
  · exact sample_pick_eval

/-- Witness for C6: the selection spec applied to the concrete face with
distances 2.0, 0.5, 1.7. -/
theorem claim_C6_witness :
    ∃ (m : ℚ) (k : Nat),
      closest_vertex_loop sample_mesh ⟨0,0,0⟩ [0,1,2] 0 none (-1) = .ok (some m, (k : Int)) ∧
      is_first_argmin (face_dists sample_mesh ⟨0,0,0⟩ [0,1,2]) k :=
  claim_C6_closest_vertex_selection.1 sample_mesh ⟨0,0,0⟩ [0,1,2] (by decide)
    (by decide)

/-- C10: If the ray hit lands on a face whose vertex list is empty, the
sampler's color lookup returns no color (the same "no result" outcome as
a ray miss) instead of indexing with the sentinel `-1`; whenever a color
is returned, the closest-vertex index used for array access is a genuine
face-local index. -/
theorem claim_C10_empty_face_guard :
    (∀ (mesh : Mesh) (hit : Point) (fidx : Int) (face : Face) (color_attr : Attr),
      attrs_find mesh.color_attributes mesh.active_color_name = some color_attr →
      pyget mesh.polygons fidx = .ok face →
      face.vertices = [] →
      pick_vertex_color_from_rayhit mesh hit fidx = .ok none ∧
      (∀ (loc : Point) (fi : Int),
        pick_vertex_color_from_mouse_coord mesh ⟨false, loc, fi⟩ =
          pick_vertex_color_from_rayhit mesh hit fidx)) ∧
    (∀ (mesh : Mesh) (hit : Point) (fidx : Int) (c : Color),
      pick_vertex_color_from_rayhit mesh hit fidx = .ok (some c) →
      ∃ (face : Face) (md : Option ℚ) (k : Nat),
        pyget mesh.polygons fidx = .ok face ∧
        closest_vertex_loop mesh hit face.vertices 0 none (-1) = .ok (md, (k : Int)) ∧
        k < face.vertices.length) := by
  constructor
  · intro mesh hit fidx face color_attr hfind hface hemp
    have hpick : pick_vertex_color_from_rayhit mesh hit fidx = .ok none := by
      simp only [pick_vertex_color_from_rayhit, hfind, hface]
      rw [if_pos (by simp [hemp])]
    refine ⟨hpick, fun loc fi => ?_⟩
    rw [hpick]
    rfl
  · intro mesh hit fidx c h
    simp only [pick_vertex_color_from_rayhit] at h
    rcases hfind : attrs_find mesh.color_attributes mesh.active_color_name with _ | color_attr
    · rw [hfind] at h
      simp at h
    · simp only [hfind] at h
      rcases hface : pyget mesh.polygons fidx with e | face
      · rw [hface] at h
        simp at h
      · simp only [hface] at h
        by_cases hlen0 : face.vertices.length = 0
        · rw [if_pos hlen0] at h
          simp at h
        · rw [if_neg hlen0] at h
          rcases hloop : closest_vertex_loop mesh hit face.vertices 0 none (-1) with e | res
          · rw [hloop] at h
            simp at h
          · rcases res with ⟨md, best⟩
            obtain ⟨k, hbk, hklen⟩ := closest_vertex_loop_start_range mesh hit face.vertices
              (fun hc => hlen0 (by simp [hc])) md best hloop
            exact ⟨face, md, k, rfl, by rw [hloop, hbk], hklen⟩

/-- Witness for C10: the empty-face guard on a concrete mesh and the
genuine-index consequence at the concrete sample mesh. -/
theorem claim_C10_witness :
    (pick_vertex_color_from_rayhit
        ⟨[], 0, [⟨[], []⟩], [⟨['C'], [], ['P','O','I','N','T'], []⟩], ['C']⟩
        ⟨0,0,0⟩ 0 = .ok none ∧
     (∀ (loc : Point) (fi : Int),
       pick_vertex_color_from_mouse_coord
          ⟨[], 0, [⟨[], []⟩], [⟨['C'], [], ['P','O','I','N','T'], []⟩], ['C']⟩
          ⟨false, loc, fi⟩ =
        pick_vertex_color_from_rayhit
          ⟨[], 0, [⟨[], []⟩], [⟨['C'], [], ['P','O','I','N','T'], []⟩], ['C']⟩
          ⟨0,0,0⟩ 0)) ∧
    (∃ (face : Face) (md : Option ℚ) (k : Nat),
      pyget sample_mesh.polygons 0 = .ok face ∧
      closest_vertex_loop sample_mesh ⟨0,0,0⟩ face.vertices 0 none (-1) =
        .ok (md, (k : Int)) ∧
      k < face.vertices.length) :=
  ⟨claim_C10_empty_face_guard.1
      ⟨[], 0, [⟨[], []⟩], [⟨['C'], [], ['P','O','I','N','T'], []⟩], ['C']⟩
      ⟨0,0,0⟩ 0 ⟨[], []⟩ ⟨['C'], [], ['P','O','I','N','T'], []⟩ rfl rfl rfl,
   claim_C10_empty_face_guard.2 sample_mesh ⟨0,0,0⟩ 0 ⟨0,1,0,1⟩ sample_pick_eval⟩

lemma pyround_eq_floor_or (q : ℚ) : pyround q = ⌊q⌋ ∨ pyround q = ⌊q⌋ + 1 := by
  simp only [pyround]
  split_ifs <;> simp

lemma pyround_eq_floor_of_lt (q : ℚ) (hr : q - ⌊q⌋ < 1/2) : pyround q = ⌊q⌋ := by
  simp only [pyround]
  rw [if_pos hr]

lemma pyround_bounds (q : ℚ) (C : ℤ) (h0 : 0 ≤ q) (hC : q ≤ (C : ℚ)) :
    0 ≤ pyround q ∧ pyround q ≤ C := by
  have hf0 : 0 ≤ ⌊q⌋ := Int.floor_nonneg.mpr h0
  have hfC : ⌊q⌋ ≤ C := by
    have h := Int.floor_le_floor hC
    rwa [Int.floor_intCast] at h
  rcases pyround_eq_floor_or q with h | h
  · rw [h]
    exact ⟨hf0, hfC⟩
  · rw [h]
    refine ⟨by omega, ?_⟩
    by_cases hEq : ⌊q⌋ = C
    · exfalso
      have hq : q - ⌊q⌋ < 1/2 := by
        have hle : q ≤ (⌊q⌋ : ℚ) := by
          rw [hEq]
          exact_mod_cast hC
        linarith
      have := pyround_eq_floor_of_lt q hq
      omega
    · omega

lemma digit_char_ne_dot (n : ℕ) (h : n < 16) : digit_char n ≠ '.' := by
  interval_cases n <;> decide

lemma nat_to_chars_core_ten_no_dot : ∀ (fuel n : ℕ), '.' ∉ nat_to_chars_core 10 fuel n := by
  intro fuel
  induction fuel with
  | zero =>
    intro n
    simp [nat_to_chars_core]
  | succ f ih =>
    intro n
    rw [nat_to_chars_core]
    by_cases h : n < 10
    · rw [if_pos h]
      simpa using (digit_char_ne_dot n (by omega)).symm
    · rw [if_neg h]
      intro hc
      rcases List.mem_append.mp hc with hc1 | hc2
      · exact ih (n / 10) hc1
      · have hd := digit_char_ne_dot (n % 10) (by omega)
        simp only [List.mem_cons, List.not_mem_nil, or_false] at hc2
        exact hd hc2.symm

lemma nat_to_chars_core_single (base fuel x : ℕ) (hx : x < base) :
    nat_to_chars_core base (fuel + 1) x = [digit_char x] := by
  rw [nat_to_chars_core, if_pos hx]

lemma nat_to_chars_core_step (base fuel n : ℕ) (h : ¬ n < base) :
    nat_to_chars_core base (fuel + 1) n =
      nat_to_chars_core base fuel (n / base) ++ [digit_char (n % base)] := by
  rw [nat_to_chars_core, if_neg h]

lemma nat_to_hex_length_le_two (n : ℕ) (h : n < 256) : (nat_to_hex n).length ≤ 2 := by
  unfold nat_to_hex
  by_cases h16 : n < 16
  · rw [nat_to_chars_core_single 16 n n h16]
    simp
  · obtain ⟨m, rfl⟩ : ∃ m, n = m + 1 := ⟨n - 1, by omega⟩
    rw [nat_to_chars_core_step 16 (m + 1) (m + 1) h16]
    rw [nat_to_chars_core_single 16 m ((m + 1) / 16) (by omega)]
    simp

lemma nat_to_dec_length_le_three (n : ℕ) (h : n < 1000) : (nat_to_dec n).length ≤ 3 := by
  unfold nat_to_dec
  by_cases h10 : n < 10
  · rw [nat_to_chars_core_single 10 n n h10]
    simp
  · obtain ⟨m, rfl⟩ : ∃ m, n = m + 1 := ⟨n - 1, by omega⟩
    rw [nat_to_chars_core_step 10 (m + 1) (m + 1) h10]
    by_cases h100 : (m + 1) / 10 < 10
    · rw [nat_to_chars_core_single 10 m ((m + 1) / 10) h100]
      simp
    · obtain ⟨s, rfl⟩ : ∃ s, m = s + 1 := ⟨m - 1, by omega⟩
      rw [nat_to_chars_core_step 10 (s + 1) ((s + 1 + 1) / 10) h100]
      rw [nat_to_chars_core_single 10 s ((s + 1 + 1) / 10 / 10) (by omega)]
      simp

lemma zero_pad_length (k : ℕ) (s : List Char) (h : s.length ≤ k) :
    (zero_pad k s).length = k := by
  simp only [zero_pad, List.length_append, List.length_replicate]
  omega

lemma zero_pad_no_dot (k : ℕ) (s : List Char) (h : '.' ∉ s) : '.' ∉ zero_pad k s := by
  intro hc
  rcases List.mem_append.mp hc with h1 | h2
  · exact absurd (List.eq_of_mem_replicate h1) (by decide)
  · exact h h2

lemma format_02X_length (i : ℤ) (h0 : 0 ≤ i) (h255 : i ≤ 255) :
    (format_02X i).length = 2 := by
  unfold format_02X
  rw [if_neg (by omega)]
  exact zero_pad_length 2 _ (nat_to_hex_length_le_two i.toNat (by omega))

/-- C7: For every RGBA color with components in `[0,1]`, the sampler's
numeric formatting prints each component without a decimal point when it
is an integer and with exactly 3 decimal places otherwise; the hex
formatting produces `#RRGGBB` from the components rounded to `0..255`,
appending a two-digit alpha suffix exactly when the rounded alpha
differs from 255; and when the linear and display decimal strings are
identical a single combined report line is produced, otherwise two
labeled ones. -/
theorem claim_C7_color_formatting :
    (∀ q : ℚ, 0 ≤ q → q ≤ 1 →
      (q.den = 1 → '.' ∉ f2s q) ∧
      (q.den ≠ 1 → ∃ pre frac, f2s q = pre ++ '.' :: frac ∧ frac.length = 3 ∧
        '.' ∉ pre ∧ '.' ∉ frac)) ∧
    (∀ r g b a : ℚ, 0 ≤ r → r ≤ 1 → 0 ≤ g → g ≤ 1 → 0 ≤ b → b ≤ 1 → 0 ≤ a → a ≤ 1 →
      0 ≤ pyround (a * 255) ∧ pyround (a * 255) ≤ 255 ∧
      (format_02X (pyround (r * 255))).length = 2 ∧
      (format_02X (pyround (g * 255))).length = 2 ∧
      (format_02X (pyround (b * 255))).length = 2 ∧
      (format_02X (pyround (a * 255))).length = 2 ∧
      (pyround (a * 255) = 255 →
        col_to_hex [r, g, b, a] = .ok ('#' ::
          (format_02X (pyround (r * 255)) ++ format_02X (pyround (g * 255)) ++
           format_02X (pyround (b * 255))))) ∧
      (pyround (a * 255) ≠ 255 →
        col_to_hex [r, g, b, a] = .ok (('#' ::
          (format_02X (pyround (r * 255)) ++ format_02X (pyround (g * 255)) ++
           format_02X (pyround (b * 255)))) ++ format_02X (pyround (a * 255))))) ∧
    (∀ (col_lin col_srgb : List ℚ) (s1 s2 : List Char),
      col_to_hex col_lin = .ok s1 → col_to_hex col_srgb = .ok s2 →
      (join_comma (col_lin.map f2s) = join_comma (col_srgb.map f2s) →
        sample_report_str col_lin col_srgb =
          .ok (("Color is  ".toList ++ s1) ++
               (" (".toList ++ join_comma (col_lin.map f2s) ++ [')']))) ∧
      (join_comma (col_lin.map f2s) ≠ join_comma (col_srgb.map f2s) →
        sample_report_str col_lin col_srgb =
          .ok (("Linear color is  ".toList ++ s1) ++
               (" (".toList ++ join_comma (col_lin.map f2s)) ++
               (")  |  SRGB color is ".toList ++ s2) ++
               (" (".toList ++ join_comma (col_srgb.map f2s) ++ [')'])))) := by
  refine ⟨?_, ?_, ?_⟩
  · intro q h0 h1
    constructor
    · intro hden
      have hnum : (q.num : ℚ) = q := (Rat.den_eq_one_iff q).mp hden
      have hn0 : 0 ≤ q.num := by
        have : (0 : ℚ) ≤ (q.num : ℚ) := by rw [hnum]; exact h0
        exact_mod_cast this
      have hn1 : q.num ≤ 1 := by
        have : (q.num : ℚ) ≤ (1 : ℚ) := by rw [hnum]; exact h1
        exact_mod_cast this
      unfold f2s
      rw [if_pos hden]
      unfold int_to_dec
      rw [if_neg (by omega)]
      have : q.num = 0 ∨ q.num = 1 := by omega
      rcases this with h | h <;> rw [h] <;> decide
    · intro hden
      unfold f2s
      rw [if_neg hden]
      unfold format_3f
      rw [if_neg (not_lt.mpr h0)]
      unfold format_3f_nonneg
      refine ⟨nat_to_dec ((pyround (q * 1000)).toNat / 1000),
        zero_pad 3 (nat_to_dec ((pyround (q * 1000)).toNat % 1000)), rfl, ?_, ?_, ?_⟩
      · exact zero_pad_length 3 _ (nat_to_dec_length_le_three _ (by omega))
      · exact nat_to_chars_core_ten_no_dot _ _
      · exact zero_pad_no_dot _ _ (nat_to_chars_core_ten_no_dot _ _)
  · intro r g b a hr0 hr1 hg0 hg1 hb0 hb1 ha0 ha1
    have bnd : ∀ q : ℚ, 0 ≤ q → q ≤ 1 → 0 ≤ pyround (q * 255) ∧ pyround (q * 255) ≤ 255 := by
      intro q h0 h1
      refine pyround_bounds (q * 255) 255 (by positivity) ?_
      have h := mul_le_mul_of_nonneg_right h1 (by norm_num : (0:ℚ) ≤ 255)
      rw [one_mul] at h
      push_cast
      exact h
    obtain ⟨hr2, hr3⟩ := bnd r hr0 hr1
    obtain ⟨hg2, hg3⟩ := bnd g hg0 hg1
    obtain ⟨hb2, hb3⟩ := bnd b hb0 hb1
    obtain ⟨ha2, ha3⟩ := bnd a ha0 ha1
    refine ⟨ha2, ha3, format_02X_length _ hr2 hr3, format_02X_length _ hg2 hg3,
      format_02X_length _ hb2 hb3, format_02X_length _ ha2 ha3, ?_, ?_⟩
    · intro hA
      unfold col_to_hex
      simp only [List.map_cons, List.map_nil]
      rw [if_neg (fun hc => hc hA)]
    · intro hA
      unfold col_to_hex
      simp only [List.map_cons, List.map_nil]
      rw [if_pos hA]
  · intro col_lin col_srgb s1 s2 h1 h2
    constructor
    · intro hdec
      unfold sample_report_str
      simp only [h1, h2]
      rw [if_pos hdec]
    · intro hdec
      unfold sample_report_str
      simp only [h1, h2]
      rw [if_neg hdec]

/-- Witness for C7: the decimal-shape facts at `q = 1/2` and the hex
facts at the color `(1, 0, 0, 1/2)`. -/
theorem claim_C7_witness :
    (((1/2 : ℚ).den = 1 → '.' ∉ f2s (1/2 : ℚ)) ∧
     ((1/2 : ℚ).den ≠ 1 → ∃ pre frac, f2s (1/2 : ℚ) = pre ++ '.' :: frac ∧
        frac.length = 3 ∧ '.' ∉ pre ∧ '.' ∉ frac)) ∧
    (0 ≤ pyround ((1/2 : ℚ) * 255) ∧ pyround ((1/2 : ℚ) * 255) ≤ 255 ∧
     (format_02X (pyround ((1 : ℚ) * 255))).length = 2 ∧
     (format_02X (pyround ((0 : ℚ) * 255))).length = 2 ∧
     (format_02X (pyround ((0 : ℚ) * 255))).length = 2 ∧
     (format_02X (pyround ((1/2 : ℚ) * 255))).length = 2 ∧
     (pyround ((1/2 : ℚ) * 255) = 255 →
       col_to_hex [(1 : ℚ), 0, 0, 1/2] = .ok ('#' ::
         (format_02X (pyround ((1 : ℚ) * 255)) ++ format_02X (pyround ((0 : ℚ) * 255)) ++
          format_02X (pyround ((0 : ℚ) * 255))))) ∧
     (pyround ((1/2 : ℚ) * 255) ≠ 255 →
       col_to_hex [(1 : ℚ), 0, 0, 1/2] = .ok (('#' ::
         (format_02X (pyround ((1 : ℚ) * 255)) ++ format_02X (pyround ((0 : ℚ) * 255)) ++
          format_02X (pyround ((0 : ℚ) * 255)))) ++ format_02X (pyround ((1/2 : ℚ) * 255))))) :=
  ⟨claim_C7_color_formatting.1 (1/2) (by norm_num) (by norm_num),
   claim_C7_color_formatting.2.1 1 0 0 (1/2) (by norm_num) (by norm_num) (by norm_num)
     (by norm_num) (by norm_num) (by norm_num) (by norm_num) (by norm_num)⟩

lemma attrs_find_eq_some_name (attrs : List Attr) (n : List Char) (a : Attr)
    (h : attrs_find attrs n = some a) : a.name = n := by
  have hp := List.find?_some h
  simpa using hp

lemma attrs_find_eq_none (l : List Attr) (n : List Char) :
    attrs_find l n = none ↔ ∀ a ∈ l, a.name ≠ n := by
  simp [attrs_find, List.find?_eq_none]

lemma attrs_set_data_append_of_not_mem (l1 l2 : List Attr) (n : List Char) (d : List Color)
    (h : ∀ a ∈ l1, a.name ≠ n) :
    attrs_set_data (l1 ++ l2) n d = l1 ++ attrs_set_data l2 n d := by
  induction l1 with
  | nil => simp
  | cons a rest ih =>
    simp only [List.cons_append, attrs_set_data, List.append_eq]
    rw [if_neg (h a (List.mem_cons_self _ _)),
      ih (fun x hx => h x (List.mem_cons_of_mem _ hx))]

lemma attrs_set_data_self (l : List Attr) (n : List Char) (a : Attr)
    (hfind : attrs_find l n = some a) :
    attrs_set_data l n a.data = l := by
  induction l with
  | nil => simp [attrs_find] at hfind
  | cons b rest ih =>
    by_cases hb : b.name = n
    · have hfb : attrs_find (b :: rest) n = some b := by
        simp [attrs_find, List.find?_cons_of_pos, hb]
      rw [hfb] at hfind
      obtain rfl : b = a := by simpa using hfind
      simp only [attrs_set_data]
      rw [if_pos hb]
    · have hfr : attrs_find rest n = some a := by
        have : attrs_find (b :: rest) n = attrs_find rest n := by
          simp [attrs_find, List.find?_cons_of_neg, hb]
        rwa [this] at hfind
      simp only [attrs_set_data]
      rw [if_neg hb, ih hfr]

lemma attrs_remove_append_of_not_mem (l1 l2 : List Attr) (n : List Char)
    (h : ∀ a ∈ l1, a.name ≠ n) :
    attrs_remove (l1 ++ l2) n = l1 ++ attrs_remove l2 n := by
  induction l1 with
  | nil => simp
  | cons a rest ih =>
    simp only [List.cons_append, attrs_remove, List.append_eq]
    rw [if_neg (h a (List.mem_cons_self _ _)),
      ih (fun x hx => h x (List.mem_cons_of_mem _ hx))]

lemma mask_codes_ne_nil : ∀ c ∈ mask_codes, c ≠ [] := by decide

lemma make_channel_str_mem_codes (S : List Char) (hne : S ≠ [])
    (hsub : ∀ c ∈ S, c ∈ ['R','G','B','A']) : make_channel_str S ∈ mask_codes := by
  obtain ⟨c0, hc0⟩ := List.exists_mem_of_ne_nil S hne
  by_cases hA : 'A' ∈ S
  · simp [make_channel_str, hA, mask_codes]
  · by_cases hR : 'R' ∈ S <;> by_cases hG : 'G' ∈ S <;> by_cases hB : 'B' ∈ S
    all_goals try (simp [make_channel_str, hA, hR, hG, hB, mask_codes]; done)
    exfalso
    have hc := hsub c0 hc0
    simp only [List.mem_cons, List.not_mem_nil, or_false] at hc
    rcases hc with rfl | rfl | rfl | rfl
    · exact hR hc0
    · exact hG hc0
    · exact hB hc0
    · exact hA hc0

lemma shared_channel (S : List Char) (hne : S ≠ [])
    (hsub : ∀ c ∈ S, c ∈ ['R','G','B','A']) :
    ∃ c ∈ S, c ∈ make_channel_str S := by
  by_cases hA : 'A' ∈ S
  · exact ⟨'A', hA, by simp [make_channel_str, hA]⟩
  · obtain ⟨c0, hc0⟩ := List.exists_mem_of_ne_nil S hne
    have hc := hsub c0 hc0
    simp only [List.mem_cons, List.not_mem_nil, or_false] at hc
    rcases hc with rfl | rfl | rfl | rfl
    · exact ⟨'R', hc0, by simp [make_channel_str, hA, hc0]⟩
    · exact ⟨'G', hc0, by simp [make_channel_str, hA, hc0]⟩
    · exact ⟨'B', hc0, by simp [make_channel_str, hA, hc0]⟩
    · exact absurd hc0 hA

lemma map_update_self (f : Color → Color) (hf : ∀ c : Color, f c = c) :
    ∀ l : List Color, l.map f = l := by
  intro l
  induction l with
  | nil => rfl
  | cons c rest ih => simp [hf, ih]

lemma copy_to_mask_ok (base mask : Attr) (code : List Char) (hcode : code ∈ mask_codes)
    (hlen : base.data.length = mask.data.length) :
    ∃ md, copy_to_mask base mask code = .ok md ∧ md.length = base.data.length := by
  fin_cases hcode
  · exact ⟨base.data.map (fun c => ⟨c.r, 0, 0, 1⟩), by simp [copy_to_mask, hlen], by simp⟩
  · exact ⟨base.data.map (fun c => ⟨0, c.g, 0, 1⟩), by simp [copy_to_mask, hlen], by simp⟩
  · exact ⟨base.data.map (fun c => ⟨0, 0, c.b, 1⟩), by simp [copy_to_mask, hlen], by simp⟩
  · exact ⟨base.data.map (fun c => ⟨c.a, c.a, c.a, 1⟩), by simp [copy_to_mask, hlen], by simp⟩
  · exact ⟨base.data.map (fun c => ⟨c.r, c.g, 0, 1⟩), by simp [copy_to_mask, hlen], by simp⟩
  · exact ⟨base.data.map (fun c => ⟨c.r, 0, c.b, 1⟩), by simp [copy_to_mask, hlen], by simp⟩
  · exact ⟨base.data.map (fun c => ⟨0, c.g, c.b, 1⟩), by simp [copy_to_mask, hlen], by simp⟩
  · exact ⟨base.data.map (fun c => ⟨c.r, c.g, c.b, 1⟩), by simp [copy_to_mask, hlen], by simp⟩

lemma copy_roundtrip (code : List Char) (hcode : code ∈ mask_codes)
    (base mask base2 mask2 : Attr)
    (hlen : base.data.length = mask.data.length)
    (md : List Color)
    (hto : copy_to_mask base mask code = .ok md)
    (hb2 : base2.data = base.data)
    (hm2 : mask2.data = md) :
    copy_from_mask base2 mask2 code = .ok base.data := by
  fin_cases hcode
  all_goals
    simp [copy_to_mask, hlen] at hto
  all_goals
    subst hto
  all_goals
    simp [copy_from_mask, hb2, hm2, hlen]
  all_goals
    rw [List.zipWith_map_right, List.zipWith_same]
  all_goals
    refine map_update_self _ (fun c => ?_) _
  all_goals
    cases c
  all_goals
    rfl

lemma apply_mask_eval (M : Mesh) (base mask_attr mask0 : Attr) (code : List Char)
    (md : List Color)
    (hcode : code ∈ mask_codes)
    (hfind_mask : attrs_find M.color_attributes M.active_color_name = some mask_attr)
    (hmname : mask_attr.name = base.name ++ ['_','_'] ++ code)
    (hfindB : attrs_find M.color_attributes base.name = some base)
    (hlen0 : base.data.length = mask0.data.length)
    (hto : copy_to_mask base mask0 code = .ok md)
    (hmdata : mask_attr.data = md) :
    apply_mask_execute M = .ok ([], .FINISHED,
      { M with color_attributes := attrs_remove M.color_attributes mask_attr.name }) := by
  have hparts := get_mask_parts_append base.name code hcode
  have hfrom : copy_from_mask base mask_attr code = .ok base.data :=
    copy_roundtrip code hcode base mask0 base mask_attr hlen0 md hto rfl hmdata
  unfold apply_mask_execute
  simp only [hfind_mask]
  rw [if_pos (show attr_name_is_mask mask_attr.name = true by rw [hmname]; exact hparts.1)]
  rw [hmname]
  simp only [hparts.2]
  simp only [hfindB]
  simp only [hfrom]
  rw [attrs_set_data_self _ _ _ hfindB]

/-- C1: For every valid channel set `S` (non-empty subset of `{R,G,B,A}`
with `A` exclusive) and every base layer whose element count equals the
mask's, `createMask` followed by `applyMask` restores the base layer to
its pre-mask values for the channels in `S`, leaves every channel
outside `S` unchanged on every element, and removes the mask layer from
the mesh's color layers.  (The created mask is initialized from the base
and nothing edits it in between, so the final attribute collection is
exactly the original one, which subsumes all three conjuncts; the mask
layer is absent at the end because it was absent at the start.) -/
theorem claim_C1_mask_roundtrip (mesh : Mesh) (S : List Char) (base : Attr)
    (hfind : attrs_find mesh.color_attributes mesh.active_color_name = some base)
    (hnotmask : attr_name_is_mask base.name = false)
    (hne : S ≠ [])
    (hsub : ∀ c ∈ S, c ∈ ['R','G','B','A'])
    (hAex : 'A' ∈ S → ∀ c ∈ S, c = 'A')
    (hconf : check_for_conflicting_mask mesh.color_attributes base.name S = none)
    (hlen : base.data.length = domain_size mesh base.domain) :
    ∃ mask_attr : Attr,
      mask_attr.name = base.name ++ ['_','_'] ++ make_channel_str S ∧
      attrs_find mesh.color_attributes mask_attr.name = none ∧
      create_mask_execute mesh S =
        .ok ([], .FINISHED,
          { mesh with
              color_attributes := mesh.color_attributes ++ [mask_attr],
              active_color_name := mask_attr.name }) ∧
      apply_mask_execute
          { mesh with
              color_attributes := mesh.color_attributes ++ [mask_attr],
              active_color_name := mask_attr.name } =
        .ok ([], .FINISHED, { mesh with active_color_name := mask_attr.name }) := by
  clear hAex
  have hBact : base.name = mesh.active_color_name := attrs_find_eq_some_name _ _ _ hfind
  have hcode : make_channel_str S ∈ mask_codes := make_channel_str_mem_codes S hne hsub
  have hcode_ne : make_channel_str S ≠ [] := mask_codes_ne_nil _ hcode
  obtain ⟨cs, hcsS, hcs_code⟩ := shared_channel S hne hsub
  have hparts := get_mask_parts_append base.name (make_channel_str S) hcode
  have hnomaskattr : ∀ a ∈ mesh.color_attributes,
      a.name ≠ base.name ++ ['_','_'] ++ make_channel_str S := by
    intro a ha hEq
    have h1 : attr_name_is_mask a.name = true := by rw [hEq]; exact hparts.1
    have h2 : (get_mask_name_parts a.name).1 = base.name := by rw [hEq, hparts.2]
    have h3 := (check_conflict_eq_none_iff mesh.color_attributes base.name S).mp hconf
      a ha h1 h2 cs hcsS
    rw [hEq, hparts.2] at h3
    exact h3 hcs_code
  have hfind_mask_none :
      attrs_find mesh.color_attributes (base.name ++ ['_','_'] ++ make_channel_str S) = none :=
    (attrs_find_eq_none _ _).mpr hnomaskattr
  have hfindB_any : ∀ m : Attr,
      attrs_find (mesh.color_attributes ++ [m]) base.name = some base := by
    intro m
    unfold attrs_find
    rw [List.find?_append]
    rw [show List.find? (fun a => a.name == base.name) mesh.color_attributes = some base
      from hBact ▸ hfind]
    rfl
  have hfresh_len : base.data.length =
      ((⟨base.name ++ ['_','_'] ++ make_channel_str S, base.data_type, base.domain,
        List.replicate (domain_size mesh base.domain) default_color⟩ : Attr)).data.length := by
    simp [hlen]
  obtain ⟨md, hto, hmdlen⟩ := copy_to_mask_ok base
    ⟨base.name ++ ['_','_'] ++ make_channel_str S, base.data_type, base.domain,
      List.replicate (domain_size mesh base.domain) default_color⟩
    (make_channel_str S) hcode hfresh_len
  have hccm : create_color_channel_mask mesh base (make_channel_str S) =
      .ok ({ mesh with color_attributes := mesh.color_attributes ++
               [⟨base.name ++ ['_','_'] ++ make_channel_str S, base.data_type,
                 base.domain, md⟩] },
           ⟨base.name ++ ['_','_'] ++ make_channel_str S, base.data_type,
             base.domain, md⟩) := by
    unfold create_color_channel_mask
    simp only [hfind_mask_none]
    simp only [attrs_new]
    simp only [hfindB_any]
    simp only [hto]
    rw [attrs_set_data_append_of_not_mem _ _ _ _ hnomaskattr]
    simp [attrs_set_data]
  have hcreate : create_mask_execute mesh S =
      .ok ([], .FINISHED,
        { mesh with
            color_attributes := mesh.color_attributes ++
              [⟨base.name ++ ['_','_'] ++ make_channel_str S, base.data_type,
                base.domain, md⟩],
            active_color_name := base.name ++ ['_','_'] ++ make_channel_str S }) := by
    unfold create_mask_execute
    rw [if_neg hcode_ne]
    simp only [hfind]
    rw [if_neg (by simp [← hBact, hnotmask])]
    unfold create_mask_main
    simp only [hconf]
    simp only [hccm]
  have hfm : attrs_find
      (mesh.color_attributes ++
        [(⟨base.name ++ ['_','_'] ++ make_channel_str S, base.data_type,
          base.domain, md⟩ : Attr)])
      (base.name ++ ['_','_'] ++ make_channel_str S) =
      some ⟨base.name ++ ['_','_'] ++ make_channel_str S, base.data_type,
        base.domain, md⟩ := by
    unfold attrs_find
    rw [List.find?_append]
    rw [show List.find? (fun a => a.name == base.name ++ ['_','_'] ++ make_channel_str S)
        mesh.color_attributes = none from (attrs_find_eq_none _ _).mpr hnomaskattr]
    simp [List.find?]
  have hrem : attrs_remove
      (mesh.color_attributes ++
        [(⟨base.name ++ ['_','_'] ++ make_channel_str S, base.data_type,
          base.domain, md⟩ : Attr)])
      (base.name ++ ['_','_'] ++ make_channel_str S) = mesh.color_attributes := by
    rw [attrs_remove_append_of_not_mem _ _ _ hnomaskattr]
    simp [attrs_remove]
  refine ⟨⟨base.name ++ ['_','_'] ++ make_channel_str S, base.data_type, base.domain, md⟩,
    rfl, hfind_mask_none, hcreate, ?_⟩
  rw [apply_mask_eval
    { mesh with
        color_attributes := mesh.color_attributes ++
          [⟨base.name ++ ['_','_'] ++ make_channel_str S, base.data_type, base.domain, md⟩],
        active_color_name := base.name ++ ['_','_'] ++ make_channel_str S }
    base
    ⟨base.name ++ ['_','_'] ++ make_channel_str S, base.data_type, base.domain, md⟩
    ⟨base.name ++ ['_','_'] ++ make_channel_str S, base.data_type, base.domain,
      List.replicate (domain_size mesh base.domain) default_color⟩
    (make_channel_str S) md hcode hfm rfl (hfindB_any _) hfresh_len hto rfl]
  rw [hrem]

/-- Witness for C1 on a one-element POINT-domain mesh and `S = {R,G}`. -/
theorem claim_C1_witness :
    ∃ mask_attr : Attr,
      mask_attr.name = ("Base".toList ++ ['_','_'] ++ make_channel_str ['R','G']) ∧
      attrs_find [⟨"Base".toList, [], ['P','O','I','N','T'], [⟨1,0,1,0⟩]⟩]
        mask_attr.name = none ∧
      create_mask_execute
          ⟨[⟨0,0,0⟩], 0, [],
           [⟨"Base".toList, [], ['P','O','I','N','T'], [⟨1,0,1,0⟩]⟩], "Base".toList⟩
          ['R','G'] =
        .ok ([], .FINISHED,
          ⟨[⟨0,0,0⟩], 0, [],
           [⟨"Base".toList, [], ['P','O','I','N','T'], [⟨1,0,1,0⟩]⟩] ++ [mask_attr],
           mask_attr.name⟩) ∧
      apply_mask_execute
          ⟨[⟨0,0,0⟩], 0, [],
           [⟨"Base".toList, [], ['P','O','I','N','T'], [⟨1,0,1,0⟩]⟩] ++ [mask_attr],
           mask_attr.name⟩ =
        .ok ([], .FINISHED,
          ⟨[⟨0,0,0⟩], 0, [],
           [⟨"Base".toList, [], ['P','O','I','N','T'], [⟨1,0,1,0⟩]⟩], mask_attr.name⟩) :=
  claim_C1_mask_roundtrip
    ⟨[⟨0,0,0⟩], 0, [],
     [⟨"Base".toList, [], ['P','O','I','N','T'], [⟨1,0,1,0⟩]⟩], "Base".toList⟩
    ['R','G']
    ⟨"Base".toList, [], ['P','O','I','N','T'], [⟨1,0,1,0⟩]⟩
    rfl (by decide) (by decide) (by decide) (by decide) rfl rfl

end VCU
